import Mathlib

/-!
Verification development for the `l2org` LaTeX-to-Orgmode converter
(`l2org.py`).  Python strings are modelled as `List Char`, the regular
expressions used by the source are modelled by a small backtracking
matcher implementing the leftmost / greedy / lazy semantics of Python's
`re` module on the fragment of syntax the source uses, and the line
oriented conversion pass is modelled as a function from the list of
input lines to the produced output text together with the Python
exception, if any, that terminates the run.
-/

set_option maxRecDepth 10000

namespace L2Org

/-- Python strings are modelled as lists of characters. -/
abbrev Str := List Char

/-- Coerce a Lean string literal to the model type. -/
def str (s : String) : Str := s.data

/-- Outcomes that abort or end the Python interpretation of the source:
exceptions (`ValueError`, `AttributeError`, `UnboundLocalError`,
`IndexError`, `StopIteration`) and, additionally, `nonTermination`,
which marks an input on which the source loops forever. -/
inductive PyErr where
  | valueError (msg : Str)
  | attributeError
  | unboundLocal (name : Str)
  | indexError
  | stopIteration
  | nonTermination
  deriving DecidableEq, Repr

deriving instance DecidableEq for Except

/-- Python's `pat in s` substring test. -/
def strContains : Str → Str → Bool
  | s, pat =>
    if pat.isPrefixOf s then true
    else
      match s with
      | [] => false
      | _ :: xs => strContains xs pat

/-- Characters treated as whitespace by Python's `str.strip()`. -/
def isPySpace (c : Char) : Bool :=
  c = ' ' || c = '\t' || c = '\n' || c = '\r' || c = '\x0b' || c = '\x0c'

/-- Python's `str.strip()`. -/
def pyStrip (s : Str) : Str :=
  ((s.dropWhile isPySpace).reverse.dropWhile isPySpace).reverse

/-- Python slice `s[a:b]` (for `0 ≤ a ≤ b`). -/
def pySlice (s : Str) (a b : Nat) : Str := (s.drop a).take (b - a)

/-- Python's `s.split(sep)` for a one-character separator. -/
def pySplitCh (sep : Char) : Str → List Str
  | [] => [[]]
  | c :: cr =>
    let r := pySplitCh sep cr
    if c = sep then [] :: r
    else
      match r with
      | [] => [[c]]
      | h :: t => (c :: h) :: t

/-- Worker for `pySplit`; the fuel is an upper bound on the number of
characters still to be scanned, so it never runs out. -/
def pySplitAux (sep : Str) : Str → Str → Nat → List Str
  | s, cur, 0 => [cur ++ s]
  | s, cur, f + 1 =>
    if sep.isPrefixOf s then cur :: pySplitAux sep (s.drop sep.length) [] f
    else
      match s with
      | [] => [cur]
      | c :: cr => pySplitAux sep cr (cur ++ [c]) f

/-- Python's `s.split(sep)` for a non-empty separator string. -/
def pySplit (s sep : Str) : List Str := pySplitAux sep s [] (s.length + 1)

/-- Python's `s.replace(pat, rep)` (equal to `rep.join(s.split(pat))`). -/
def pyReplace (s pat rep : Str) : Str := List.intercalate rep (pySplit s pat)

/-- Worker for `pyIndex`. -/
def pyIndexAux (pat : Str) : Str → Nat → Option Nat
  | [], i => if pat.isPrefixOf ([] : Str) then some i else none
  | s@(_ :: xs), i => if pat.isPrefixOf s then some i else pyIndexAux pat xs (i + 1)

/-- Python's `s.index(pat)`: offset of the first occurrence, if any. -/
def pyIndex (s pat : Str) : Option Nat := pyIndexAux pat s 0

/-! ### A model of the fragment of Python `re` used by the source

The patterns occurring in `l2org.py` use only: literal characters,
character classes (with ranges and negation), `.` (any character except
newline), the quantifiers `*`, `+`, `?`, `*?` and `{m,n}`, the anchors
`^` and `$` (no MULTILINE flag, so `^` matches only at the start of the
string and `$` at its end or just before a terminal newline), and
capturing groups referenced as `\1`, `\2` in replacement templates.
The matcher below implements exactly Python's leftmost search with
greedy / lazy backtracking for this fragment. -/

/-- Abstract syntax of the regular-expression fragment. -/
inductive RE where
  | ch (c : Char)
  | cls (neg : Bool) (ranges : List (Char × Char))
  | dot
  | bol
  | eol
  | grp (idx : Nat) (inner : List RE)
  | rep (lo : Nat) (hi : Option Nat) (greedy : Bool) (r : RE)
  deriving Repr

/-- Group captures: `(index, start, stop)` offsets into the subject. -/
abbrev Caps := List (Nat × Nat × Nat)

/-- Does character `c` fall in the (possibly negated) class? -/
def clsHit (neg : Bool) (ranges : List (Char × Char)) (c : Char) : Bool :=
  let m := ranges.any (fun p => decide (p.1 ≤ c) && decide (c ≤ p.2))
  if neg then !m else m

mutual

/-- Structural size of a pattern, used only to compute a fuel bound. -/
def reSize : RE → Nat
  | .grp _ inner => 2 + reSizeL inner
  | .rep _ _ _ r => 2 + reSize r
  | _ => 1

/-- Structural size of a pattern sequence. -/
def reSizeL : List RE → Nat
  | [] => 0
  | r :: rs => reSize r + reSizeL rs

end

/-- Backtracking matcher in continuation-passing style.  `rest` is the
unread remainder of the subject, `pos` its absolute offset, and `k` the
continuation receiving the remainder, offset and captures after the
sequence `rs` has matched.  The fuel bounds the depth of a single
match attempt; callers supply enough for any attempt to complete. -/
def reM (fuel : Nat) (rs : List RE) (rest : Str) (pos : Nat) (caps : Caps)
    (k : Str → Nat → Caps → Option (Nat × Caps)) : Option (Nat × Caps) :=
  match fuel with
  | 0 => none
  | fuel + 1 =>
    match rs with
    | [] => k rest pos caps
    | RE.ch c :: rs' =>
      match rest with
      | [] => none
      | x :: xs => if x = c then reM fuel rs' xs (pos + 1) caps k else none
    | RE.cls n rg :: rs' =>
      match rest with
      | [] => none
      | x :: xs => if clsHit n rg x then reM fuel rs' xs (pos + 1) caps k else none
    | RE.dot :: rs' =>
      match rest with
      | [] => none
      | x :: xs => if x = '\n' then none else reM fuel rs' xs (pos + 1) caps k
    | RE.bol :: rs' => if pos = 0 then reM fuel rs' rest pos caps k else none
    | RE.eol :: rs' =>
      if rest = [] ∨ rest = ['\n'] then reM fuel rs' rest pos caps k else none
    | RE.grp i inner :: rs' =>
      reM fuel inner rest pos caps fun r2 p2 c2 =>
        reM fuel rs' r2 p2 ((i, pos, p2) :: c2) k
    | RE.rep lo hi g r :: rs' =>
      if lo > 0 then
        reM fuel [r] rest pos caps fun r2 p2 c2 =>
          reM fuel (RE.rep (lo - 1) (hi.map (fun n => n - 1)) g r :: rs') r2 p2 c2 k
      else
        match hi with
        | some 0 => reM fuel rs' rest pos caps k
        | _ =>
          let more := fun (_ : Unit) =>
            reM fuel [r] rest pos caps fun r2 p2 c2 =>
              if p2 = pos then none
              else reM fuel (RE.rep 0 (hi.map (fun n => n - 1)) g r :: rs') r2 p2 c2 k
          let halt := fun (_ : Unit) => reM fuel rs' rest pos caps k
          if g then
            match more () with
            | some res => some res
            | none => halt ()
          else
            match halt () with
            | some res => some res
            | none => more ()

/-- Fuel sufficient for any single match attempt of `rs` on `rest`. -/
def reFuel (rs : List RE) (rest : Str) : Nat :=
  8 * (rest.length + reSizeL rs + 4)

/-- Try to match at successive start offsets, leftmost first.  Returns
`(start, stop, captures)` of the first successful match. -/
def reSearchAux (rs : List RE) : Str → Nat → Nat → Option (Nat × Nat × Caps)
  | rest, pos, 0 =>
    (match reM (reFuel rs rest) rs rest pos [] (fun _ p c => some (p, c)) with
      | some (e, c) => some (pos, e, c)
      | none => none)
  | rest, pos, f + 1 =>
    match reM (reFuel rs rest) rs rest pos [] (fun _ p c => some (p, c)) with
    | some (e, c) => some (pos, e, c)
    | none =>
      match rest with
      | [] => none
      | _ :: xs => reSearchAux rs xs (pos + 1) f

/-- Python's `re.search`: leftmost match of `rs` in `s`. -/
def reSearch (rs : List RE) (s : Str) : Option (Nat × Nat × Caps) :=
  reSearchAux rs s 0 s.length

/-- One item of a replacement template: a literal or a group reference. -/
inductive TItem where
  | lit (t : Str)
  | grp (i : Nat)
  deriving Repr

/-- Expand one template item against the subject and captures. -/
def applyTmplItem (orig : Str) (caps : Caps) : TItem → Str
  | .lit t => t
  | .grp i =>
    match caps.find? (fun x => x.1 = i) with
    | some (_, a, b) => pySlice orig a b
    | none => []

/-- Expand a replacement template. -/
def applyTmpl (orig : Str) (caps : Caps) (t : List TItem) : Str :=
  (t.map (applyTmplItem orig caps)).flatten

/-- Worker for `reSub`: replace every match from offset `pos` on.
`rest` is the still-unprocessed remainder of the original subject
`orig`; the fuel bounds the number of replacements and cannot run out
for the supplied value. -/
def reSubAux (rs : List RE) (tmpl : List TItem) (orig : Str) : Str → Nat → Nat → Str
  | rest, _, 0 => rest
  | rest, pos, f + 1 =>
    match reSearchAux rs rest pos rest.length with
    | none => rest
    | some (st, en, caps) =>
      rest.take (st - pos) ++ applyTmpl orig caps tmpl ++
        (if st < en then reSubAux rs tmpl orig (rest.drop (en - pos)) en f
         else
           match rest.drop (st - pos) with
           | [] => []
           | c :: cr => c :: reSubAux rs tmpl orig cr (st + 1) f)

/-- Python's `re.sub`: replace all non-overlapping matches, left to
right, substituting group references in the template. -/
def reSub (rs : List RE) (tmpl : List TItem) (s : Str) : Str :=
  reSubAux rs tmpl s s 0 (s.length + 2)

/-- Literal character run: helper to build patterns. -/
def lits (s : String) : List RE := s.data.map RE.ch

/-- One entry of the Line Rewriter's ordered substitution table: either a
`re.sub` call (pattern, replacement template) or a literal
`str.replace` call. -/
inductive LOp where
  | sub (rs : List RE) (t : List TItem)
  | repl (pat rep : Str)

/-- Apply one table entry to a line. -/
def applyLOp (l : Str) : LOp → Str
  | .sub rs t => reSub rs t l
  | .repl p r => pyReplace l p r

/-- The ordered substitution table of `line_latex_to_orgmode`
(source lines 478-737), one entry per `re.sub` / `str.replace`
call, in source order. -/
def lOps : List LOp := [
  LOp.sub ([RE.bol] ++ lits ("%")) ([TItem.lit (str ("#+latex: %"))]),
  LOp.repl (str ("\\%")) (str ("%")),
  LOp.sub (lits ("\\email") ++ [RE.rep 0 none true (RE.cls false [('*', '*'), (' ', ' ')])] ++ lits ("\x7b") ++ [RE.grp 1 ([RE.rep 0 none true (RE.cls true [('}', '}')])])] ++ lits ("\x7d")) ([TItem.lit (str ("#+email:  ")), TItem.grp 1]),
  LOp.sub (lits ("\\date") ++ [RE.rep 0 none true (RE.cls false [('*', '*'), (' ', ' ')])] ++ lits ("\x7b") ++ [RE.grp 1 ([RE.rep 0 none true (RE.cls true [('}', '}')])])] ++ lits ("\x7d")) ([TItem.lit (str ("#+date:   ")), TItem.grp 1]),
  LOp.sub ([RE.grp 1 (lits (" ") ++ [RE.cls false [('E', 'E'), ('e', 'e')]] ++ lits ("quation") ++ [RE.rep 0 none true (RE.ch 's')]), RE.cls false [('~', '~'), (' ', ' ')]] ++ lits ("(") ++ [RE.grp 2 ([RE.rep 0 none true (RE.cls true [(')', ')')])])] ++ lits (")")) ([TItem.grp 1, TItem.lit (str (" ")), TItem.grp 2]),
  LOp.sub ([RE.grp 1 (lits (" ") ++ [RE.cls false [('E', 'E'), ('e', 'e')]] ++ lits ("quation") ++ [RE.rep 0 none true (RE.ch 's')])] ++ lits ("\\,(") ++ [RE.grp 2 ([RE.rep 0 none true (RE.cls true [(')', ')')])])] ++ lits (")")) ([TItem.grp 1, TItem.lit (str (" ")), TItem.grp 2]),
  LOp.sub ([RE.grp 1 (lits (" ") ++ [RE.cls false [('E', 'E'), ('e', 'e')]] ++ lits ("quation") ++ [RE.rep 0 none true (RE.ch 's')]), RE.cls false [('~', '~'), (' ', ' ')]]) ([TItem.grp 1, TItem.lit (str (" "))]),
  LOp.sub ([RE.grp 1 (lits (" ") ++ [RE.cls false [('E', 'E'), ('e', 'e')]] ++ lits ("quation") ++ [RE.rep 0 none true (RE.ch 's')])] ++ lits (",")) ([TItem.grp 1, TItem.lit (str (" "))]),
  LOp.sub ([RE.grp 1 (lits (" ") ++ [RE.cls false [('E', 'E'), ('e', 'e')]] ++ lits ("q") ++ [RE.rep 0 none true (RE.ch 's')]), RE.rep 0 none true (RE.ch '.'), RE.cls false [('~', '~'), (' ', ' ')]] ++ lits ("(") ++ [RE.grp 2 ([RE.rep 0 none true (RE.cls true [(')', ')')])])] ++ lits (")")) ([TItem.grp 1, TItem.lit (str (".")), TItem.grp 2]),
  LOp.sub ([RE.grp 1 (lits (" ") ++ [RE.cls false [('E', 'E'), ('e', 'e')]] ++ lits ("q") ++ [RE.rep 0 none true (RE.ch 's')]), RE.rep 0 none true (RE.ch '.')] ++ lits ("\\,(") ++ [RE.grp 2 ([RE.rep 0 none true (RE.cls true [(')', ')')])])] ++ lits (")")) ([TItem.grp 1, TItem.lit (str (".")), TItem.grp 2]),
  LOp.sub ([RE.grp 1 (lits (" ") ++ [RE.cls false [('E', 'E'), ('e', 'e')]] ++ lits ("q") ++ [RE.rep 0 none true (RE.ch 's')]), RE.rep 0 none true (RE.ch '.'), RE.cls false [('~', '~'), (' ', ' ')]]) ([TItem.grp 1, TItem.lit (str ("."))]),
  LOp.sub ([RE.grp 1 (lits (" ") ++ [RE.cls false [('E', 'E'), ('e', 'e')]] ++ lits ("q") ++ [RE.rep 0 none true (RE.ch 's')]), RE.rep 0 none true (RE.ch '.')] ++ lits (",")) ([TItem.grp 1, TItem.lit (str ("."))]),
  LOp.sub ([RE.grp 1 (lits (" ") ++ [RE.cls false [('F', 'F'), ('f', 'f')]] ++ lits ("igure") ++ [RE.rep 0 none true (RE.ch 's')]), RE.cls false [('~', '~'), (' ', ' ')]] ++ lits ("(") ++ [RE.grp 2 ([RE.rep 0 none true (RE.cls true [(')', ')')])])] ++ lits (")")) ([TItem.grp 1, TItem.lit (str (" ")), TItem.grp 2]),
  LOp.sub ([RE.grp 1 (lits (" ") ++ [RE.cls false [('F', 'F'), ('f', 'f')]] ++ lits ("igure") ++ [RE.rep 0 none true (RE.ch 's')])] ++ lits ("\\,(") ++ [RE.grp 2 ([RE.rep 0 none true (RE.cls true [(')', ')')])])] ++ lits (")")) ([TItem.grp 1, TItem.lit (str (" ")), TItem.grp 2]),
  LOp.sub ([RE.grp 1 (lits (" ") ++ [RE.cls false [('F', 'F'), ('f', 'f')]] ++ lits ("igure") ++ [RE.rep 0 none true (RE.ch 's')]), RE.cls false [('~', '~'), (' ', ' ')]]) ([TItem.grp 1, TItem.lit (str (" "))]),
  LOp.sub ([RE.grp 1 (lits (" ") ++ [RE.cls false [('F', 'F'), ('f', 'f')]] ++ lits ("igure") ++ [RE.rep 0 none true (RE.ch 's')])] ++ lits (",")) ([TItem.grp 1, TItem.lit (str (" "))]),
  LOp.sub ([RE.grp 1 (lits (" ") ++ [RE.cls false [('F', 'F'), ('f', 'f')]] ++ lits ("ig") ++ [RE.rep 0 none true (RE.ch 's')]), RE.rep 0 none true (RE.ch '.'), RE.cls false [('~', '~'), (' ', ' ')]] ++ lits ("(") ++ [RE.grp 2 ([RE.rep 0 none true (RE.cls true [(')', ')')])])] ++ lits (")")) ([TItem.grp 1, TItem.lit (str (".")), TItem.grp 2]),
  LOp.sub ([RE.grp 1 (lits (" ") ++ [RE.cls false [('F', 'F'), ('f', 'f')]] ++ lits ("ig") ++ [RE.rep 0 none true (RE.ch 's')]), RE.rep 0 none true (RE.ch '.')] ++ lits ("\\,(") ++ [RE.grp 2 ([RE.rep 0 none true (RE.cls true [(')', ')')])])] ++ lits (")")) ([TItem.grp 1, TItem.lit (str (".")), TItem.grp 2]),
  LOp.sub ([RE.grp 1 (lits (" ") ++ [RE.cls false [('F', 'F'), ('f', 'f')]] ++ lits ("ig") ++ [RE.rep 0 none true (RE.ch 's')]), RE.rep 0 none true (RE.ch '.'), RE.cls false [('~', '~'), (' ', ' ')]]) ([TItem.grp 1, TItem.lit (str ("."))]),
  LOp.sub ([RE.grp 1 (lits (" ") ++ [RE.cls false [('F', 'F'), ('f', 'f')]] ++ lits ("ig") ++ [RE.rep 0 none true (RE.ch 's')]), RE.rep 0 none true (RE.ch '.')] ++ lits (",")) ([TItem.grp 1, TItem.lit (str ("."))]),
  LOp.sub ([RE.grp 1 (lits (" ") ++ [RE.cls false [('T', 'T'), ('t', 't')]] ++ lits ("able") ++ [RE.rep 0 none true (RE.ch 's')]), RE.cls false [('~', '~'), (' ', ' ')]] ++ lits ("(") ++ [RE.grp 2 ([RE.rep 0 none true (RE.cls true [(')', ')')])])] ++ lits (")")) ([TItem.grp 1, TItem.lit (str (" ")), TItem.grp 2]),
  LOp.sub ([RE.grp 1 (lits (" ") ++ [RE.cls false [('T', 'T'), ('t', 't')]] ++ lits ("able") ++ [RE.rep 0 none true (RE.ch 's')])] ++ lits ("\\,(") ++ [RE.grp 2 ([RE.rep 0 none true (RE.cls true [(')', ')')])])] ++ lits (")")) ([TItem.grp 1, TItem.lit (str (" ")), TItem.grp 2]),
  LOp.sub ([RE.grp 1 (lits (" ") ++ [RE.cls false [('T', 'T'), ('t', 't')]] ++ lits ("able") ++ [RE.rep 0 none true (RE.ch 's')]), RE.cls false [('~', '~'), (' ', ' ')]]) ([TItem.grp 1, TItem.lit (str (" "))]),
  LOp.sub ([RE.grp 1 (lits (" ") ++ [RE.cls false [('T', 'T'), ('t', 't')]] ++ lits ("able") ++ [RE.rep 0 none true (RE.ch 's')])] ++ lits (",")) ([TItem.grp 1, TItem.lit (str (" "))]),
  LOp.sub ([RE.grp 1 (lits (" ") ++ [RE.cls false [('T', 'T'), ('t', 't')]] ++ lits ("ab") ++ [RE.rep 0 none true (RE.ch 's')]), RE.rep 0 none true (RE.ch '.'), RE.cls false [('~', '~'), (' ', ' ')]] ++ lits ("(") ++ [RE.grp 2 ([RE.rep 0 none true (RE.cls true [(')', ')')])])] ++ lits (")")) ([TItem.grp 1, TItem.lit (str (".")), TItem.grp 2]),
  LOp.sub ([RE.grp 1 (lits (" ") ++ [RE.cls false [('T', 'T'), ('t', 't')]] ++ lits ("ab") ++ [RE.rep 0 none true (RE.ch 's')]), RE.rep 0 none true (RE.ch '.')] ++ lits ("\\,(") ++ [RE.grp 2 ([RE.rep 0 none true (RE.cls true [(')', ')')])])] ++ lits (")")) ([TItem.grp 1, TItem.lit (str (".")), TItem.grp 2]),
  LOp.sub ([RE.grp 1 (lits (" ") ++ [RE.cls false [('T', 'T'), ('t', 't')]] ++ lits ("ab") ++ [RE.rep 0 none true (RE.ch 's')]), RE.rep 0 none true (RE.ch '.'), RE.cls false [('~', '~'), (' ', ' ')]]) ([TItem.grp 1, TItem.lit (str ("."))]),
  LOp.sub ([RE.grp 1 (lits (" ") ++ [RE.cls false [('T', 'T'), ('t', 't')]] ++ lits ("ab") ++ [RE.rep 0 none true (RE.ch 's')]), RE.rep 0 none true (RE.ch '.')] ++ lits (",")) ([TItem.grp 1, TItem.lit (str ("."))]),
  LOp.sub (lits ("~")) ([TItem.lit (str ("\\nbsp\x7b\x7d"))]),
  LOp.sub (lits ("\\,")) ([TItem.lit (str (" "))]),
  LOp.sub ([RE.bol, RE.rep 0 none true (RE.dot)] ++ lits ("\\setcounter") ++ [RE.cls false [('[', '['), ('{', '{')], RE.rep 0 none true (RE.dot)] ++ lits ("\n")) ([]),
  LOp.sub ([RE.bol, RE.rep 0 none true (RE.dot)] ++ lits ("\\setlength") ++ [RE.cls false [('[', '['), ('{', '{')], RE.rep 0 none true (RE.dot)] ++ lits ("\n")) ([]),
  LOp.sub ([RE.bol, RE.rep 0 none true (RE.dot)] ++ lits ("\\newlength") ++ [RE.cls false [('[', '['), ('{', '{')], RE.rep 0 none true (RE.dot)] ++ lits ("\n")) ([]),
  LOp.sub ([RE.bol, RE.rep 0 none true (RE.dot)] ++ lits ("\\addtolength") ++ [RE.cls false [('[', '['), ('{', '{')], RE.rep 0 none true (RE.dot)] ++ lits ("\n")) ([]),
  LOp.sub ([RE.bol, RE.rep 0 none true (RE.dot)] ++ lits ("\\raggedleft") ++ [RE.rep 0 none true (RE.dot)] ++ lits ("\n")) ([]),
  LOp.sub ([RE.bol, RE.rep 0 none true (RE.dot)] ++ lits ("\\raggedright") ++ [RE.rep 0 none true (RE.dot)] ++ lits ("\n")) ([]),
  LOp.sub ([RE.bol, RE.rep 0 none true (RE.ch ' ')] ++ lits ("\\raggedcolumns") ++ [RE.rep 0 none true (RE.ch ' ')] ++ lits ("\n")) ([]),
  LOp.sub ([RE.bol, RE.rep 0 none true (RE.ch ' ')] ++ lits ("\\vspace") ++ [RE.rep 0 none true (RE.ch '*')] ++ lits ("\x7b") ++ [RE.rep 0 none true (RE.cls true [('}', '}')])] ++ lits ("\x7d") ++ [RE.rep 0 none true (RE.ch ' ')] ++ lits ("\n")) ([TItem.lit (str ("\n\n"))]),
  LOp.sub ([RE.rep 0 none true (RE.ch ' ')] ++ lits ("\\vspace") ++ [RE.rep 0 none true (RE.ch '*')] ++ lits ("\x7b") ++ [RE.rep 0 none true (RE.cls true [('}', '}')])] ++ lits ("\x7d") ++ [RE.rep 0 none true (RE.ch ' ')]) ([TItem.lit (str ("\n\n"))]),
  LOp.sub ([RE.bol, RE.rep 0 none true (RE.ch ' ')] ++ lits ("\\addvspace") ++ [RE.rep 0 none true (RE.ch '*')] ++ lits ("\x7b") ++ [RE.rep 0 none true (RE.cls true [('}', '}')])] ++ lits ("\x7d") ++ [RE.rep 0 none true (RE.ch ' ')] ++ lits ("\n")) ([TItem.lit (str ("\n\n"))]),
  LOp.sub ([RE.rep 0 none true (RE.ch ' ')] ++ lits ("\\addvspace") ++ [RE.rep 0 none true (RE.ch '*')] ++ lits ("\x7b") ++ [RE.rep 0 none true (RE.cls true [('}', '}')])] ++ lits ("\x7d") ++ [RE.rep 0 none true (RE.ch ' ')]) ([TItem.lit (str ("\n\n"))]),
  LOp.sub ([RE.bol, RE.rep 0 none true (RE.ch ' ')] ++ lits ("\\hspace") ++ [RE.rep 0 none true (RE.ch '*')] ++ lits ("\x7b") ++ [RE.rep 0 none true (RE.cls true [('}', '}')])] ++ lits ("\x7d") ++ [RE.rep 0 none true (RE.ch ' ')] ++ lits ("\n")) ([]),
  LOp.sub ([RE.rep 0 none true (RE.ch ' ')] ++ lits ("\\hspace") ++ [RE.rep 0 none true (RE.ch '*')] ++ lits ("\x7b") ++ [RE.rep 0 none true (RE.cls true [('}', '}')])] ++ lits ("\x7d") ++ [RE.rep 0 none true (RE.ch ' ')]) ([]),
  LOp.sub (lits ("\\vfill")) ([]),
  LOp.sub ([RE.bol, RE.rep 0 none true (RE.ch ' ')] ++ lits ("\\noindent") ++ [RE.rep 0 none true (RE.ch ' ')] ++ lits ("\n")) ([]),
  LOp.sub ([RE.rep 0 none true (RE.ch ' ')] ++ lits ("\\noindent") ++ [RE.rep 0 none true (RE.ch ' ')]) ([]),
  LOp.sub ([RE.rep 0 none true (RE.ch ' ')] ++ lits ("\\parbox\x7b") ++ [RE.rep 0 none true (RE.cls true [('}', '}')])] ++ lits ("\x7d") ++ [RE.rep 0 none true (RE.ch ' ')]) ([]),
  LOp.sub (lits ("\x7d") ++ [RE.rep 0 none true (RE.ch ' ')] ++ lits ("\\label") ++ [RE.rep 0 none true (RE.ch ' ')] ++ lits ("\x7b") ++ [RE.grp 1 ([RE.rep 0 none true (RE.cls true [('}', '}')])])] ++ lits ("\x7d")) ([TItem.lit (str ("\x7d\n\\label\x7b")), TItem.grp 1, TItem.lit (str ("\x7d"))]),
  LOp.sub ([RE.bol, RE.rep 0 none true (RE.dot)] ++ lits ("\\end\x7bdocument\x7d") ++ [RE.rep 0 none true (RE.dot)] ++ lits ("\n")) ([]),
  LOp.sub ([RE.bol, RE.rep 0 none true (RE.dot)] ++ lits ("\\end\x7bdocument\x7d")) ([]),
  LOp.sub (lits ("\\bibliographystyle\x7b") ++ [RE.grp 1 ([RE.rep 0 none false (RE.dot)])] ++ lits ("\x7d")) ([TItem.lit (str ("bibliographystyle:")), TItem.grp 1]),
  LOp.sub (lits ("\\bibliography\x7b") ++ [RE.grp 1 ([RE.rep 0 none false (RE.dot)])] ++ lits ("\x7d")) ([TItem.lit (str ("bibliography:")), TItem.grp 1]),
  LOp.sub ([RE.bol, RE.rep 0 none true (RE.dot)] ++ lits ("\\begin\x7bcenter\x7d") ++ [RE.rep 0 none true (RE.dot)] ++ lits ("\n")) ([]),
  LOp.sub ([RE.bol, RE.rep 0 none true (RE.dot)] ++ lits ("\\end\x7bcenter\x7d") ++ [RE.rep 0 none true (RE.dot)] ++ lits ("\n")) ([]),
  LOp.sub ([RE.bol, RE.rep 0 none true (RE.dot)] ++ lits ("\\begin\x7btiny\x7d") ++ [RE.rep 0 none true (RE.dot)] ++ lits ("\n")) ([]),
  LOp.sub ([RE.bol, RE.rep 0 none true (RE.dot)] ++ lits ("\\end\x7btiny\x7d") ++ [RE.rep 0 none true (RE.dot)] ++ lits ("\n")) ([]),
  LOp.sub ([RE.bol, RE.rep 0 none true (RE.dot)] ++ lits ("\\begin\x7bfootnotesize\x7d") ++ [RE.rep 0 none true (RE.dot)] ++ lits ("\n")) ([]),
  LOp.sub ([RE.bol, RE.rep 0 none true (RE.dot)] ++ lits ("\\end\x7bfootnotesize\x7d") ++ [RE.rep 0 none true (RE.dot)] ++ lits ("\n")) ([]),
  LOp.sub ([RE.bol, RE.rep 0 none true (RE.dot)] ++ lits ("\\begin\x7bscriptsize\x7d") ++ [RE.rep 0 none true (RE.dot)] ++ lits ("\n")) ([]),
  LOp.sub ([RE.bol, RE.rep 0 none true (RE.dot)] ++ lits ("\\end\x7bscriptsize\x7d") ++ [RE.rep 0 none true (RE.dot)] ++ lits ("\n")) ([]),
  LOp.sub ([RE.bol, RE.rep 0 none true (RE.dot)] ++ lits ("\\begin\x7bnormalsize\x7d") ++ [RE.rep 0 none true (RE.dot)] ++ lits ("\n")) ([]),
  LOp.sub ([RE.bol, RE.rep 0 none true (RE.dot)] ++ lits ("\\end\x7bnormalsize\x7d") ++ [RE.rep 0 none true (RE.dot)] ++ lits ("\n")) ([]),
  LOp.sub ([RE.bol, RE.rep 0 none true (RE.dot)] ++ lits ("\\begin\x7b") ++ [RE.cls false [('L', 'L'), ('l', 'l')]] ++ lits ("arge\x7d") ++ [RE.rep 0 none true (RE.dot)] ++ lits ("\n")) ([]),
  LOp.sub ([RE.bol, RE.rep 0 none true (RE.dot)] ++ lits ("\\end\x7b") ++ [RE.cls false [('L', 'L'), ('l', 'l')]] ++ lits ("arge\x7d") ++ [RE.rep 0 none true (RE.dot)] ++ lits ("\n")) ([]),
  LOp.sub ([RE.bol, RE.rep 0 none true (RE.dot)] ++ lits ("\\begin\x7bLARGE\x7d") ++ [RE.rep 0 none true (RE.dot)] ++ lits ("\n")) ([]),
  LOp.sub ([RE.bol, RE.rep 0 none true (RE.dot)] ++ lits ("\\end\x7bLARGE\x7d") ++ [RE.rep 0 none true (RE.dot)] ++ lits ("\n")) ([]),
  LOp.sub ([RE.bol, RE.rep 0 none true (RE.dot)] ++ lits ("\\begin\x7b") ++ [RE.cls false [('H', 'H'), ('h', 'h')]] ++ lits ("uge\x7d") ++ [RE.rep 0 none true (RE.dot)] ++ lits ("\n")) ([]),
  LOp.sub ([RE.bol, RE.rep 0 none true (RE.dot)] ++ lits ("\\end\x7b") ++ [RE.cls false [('H', 'H'), ('h', 'h')]] ++ lits ("uge\x7d") ++ [RE.rep 0 none true (RE.dot)] ++ lits ("\n")) ([]),
  LOp.sub (lits ("\\centering")) ([]),
  LOp.sub (lits ("\\caption\x7b")) ([TItem.lit (str ("Caption: "))]),
  LOp.sub ([RE.bol, RE.rep 0 none true (RE.dot)] ++ lits ("\\begin\x7bitemize") ++ [RE.rep 0 none true (RE.dot)] ++ lits ("\n")) ([]),
  LOp.sub ([RE.bol, RE.rep 0 none true (RE.dot)] ++ lits ("\\end\x7bitemize") ++ [RE.rep 0 none true (RE.dot)] ++ lits ("\n")) ([]),
  LOp.sub ([RE.bol, RE.rep 0 none true (RE.dot)] ++ lits ("\\begin\x7benumerate") ++ [RE.rep 0 none true (RE.dot)] ++ lits ("\n")) ([]),
  LOp.sub ([RE.bol, RE.rep 0 none true (RE.dot)] ++ lits ("\\end\x7benumerate") ++ [RE.rep 0 none true (RE.dot)] ++ lits ("\n")) ([]),
  LOp.sub ([RE.bol, RE.rep 0 none true (RE.dot)] ++ lits ("\\begin\x7bdescription") ++ [RE.rep 0 none true (RE.dot)] ++ lits ("\n")) ([]),
  LOp.sub ([RE.bol, RE.rep 0 none true (RE.dot)] ++ lits ("\\end\x7bdescription") ++ [RE.rep 0 none true (RE.dot)] ++ lits ("\n")) ([]),
  LOp.sub (lits ("\\item[") ++ [RE.grp 1 ([RE.rep 0 none true (RE.cls true [(']', ']')])])] ++ lits ("]") ++ [RE.rep 0 none true (RE.ch ' ')]) ([TItem.lit (str ("+ ")), TItem.grp 1, TItem.lit (str (" :: "))]),
  LOp.sub (lits ("\\item") ++ [RE.rep 0 none true (RE.ch ' ')]) ([TItem.lit (str ("+ "))]),
  LOp.sub ([RE.bol, RE.rep 0 none true (RE.dot)] ++ lits ("\\begin\x7bverbatim") ++ [RE.rep 0 none true (RE.dot)] ++ lits ("\n")) ([TItem.lit (str ("#+begin_src text\n"))]),
  LOp.sub ([RE.bol, RE.rep 0 none true (RE.dot)] ++ lits ("\\end\x7bverbatim") ++ [RE.rep 0 none true (RE.dot)] ++ lits ("\n")) ([TItem.lit (str ("#+end_src text\n"))]),
  LOp.sub ([RE.bol, RE.rep 0 none true (RE.dot)] ++ lits ("\\begin\x7bappendices") ++ [RE.rep 0 none true (RE.dot)] ++ lits ("\n")) ([]),
  LOp.sub ([RE.bol, RE.rep 0 none true (RE.dot)] ++ lits ("\\end\x7bappendices") ++ [RE.rep 0 none true (RE.dot)] ++ lits ("\n")) ([]),
  LOp.sub (lits ("\\appendix")) ([]),
  LOp.sub (lits ("\\tiny")) ([]),
  LOp.sub (lits ("\\footnotesize")) ([]),
  LOp.sub (lits ("\\small")) ([]),
  LOp.sub (lits ("\\normalsize")) ([]),
  LOp.sub (lits ("\\large")) ([]),
  LOp.sub (lits ("\\Large")) ([]),
  LOp.sub (lits ("\\LARGE")) ([]),
  LOp.sub (lits ("\\huge")) ([]),
  LOp.sub (lits ("\\Huge")) ([]),
  LOp.sub (lits ("\\newline")) ([]),
  LOp.sub (lits ("\\pagebreak")) ([]),
  LOp.sub (lits ("\\newpage")) ([]),
  LOp.sub ([RE.bol, RE.rep 0 none true (RE.dot)] ++ lits ("\\newtheorem\x7b") ++ [RE.rep 0 none true (RE.dot)] ++ lits ("\n")) ([]),
  LOp.sub ([RE.bol, RE.rep 0 none true (RE.ch ' ')] ++ lits ("\\textbf") ++ [RE.rep 0 none true (RE.cls false [('*', '*'), (' ', ' ')])] ++ lits ("\x7b") ++ [RE.grp 1 ([RE.rep 0 none true (RE.cls true [('}', '}')])])] ++ lits ("\x7d") ++ [RE.rep 0 none true (RE.ch ' '), RE.eol]) ([TItem.lit (str ("\n**** ")), TItem.grp 1]),
  LOp.sub ([RE.bol, RE.rep 0 none true (RE.dot)] ++ lits ("\\frame") ++ [RE.cls false [('[', '['), ('{', '{')], RE.rep 0 none true (RE.dot)] ++ lits ("\n")) ([]),
  LOp.sub ([RE.bol, RE.rep 0 none true (RE.ch ' ')] ++ lits ("\\frametitle") ++ [RE.rep 0 none true (RE.cls false [('*', '*'), (' ', ' ')])] ++ lits ("\x7b") ++ [RE.grp 1 ([RE.rep 0 none true (RE.cls true [('}', '}')])])] ++ lits ("\x7d") ++ [RE.rep 0 none true (RE.ch ' ')] ++ lits ("\n")) ([TItem.lit (str ("\n*** ")), TItem.grp 1]),
  LOp.sub ([RE.rep 0 none true (RE.ch ' ')] ++ lits ("\\frametitle") ++ [RE.rep 0 none true (RE.cls false [('*', '*'), (' ', ' ')])] ++ lits ("\x7b") ++ [RE.grp 1 ([RE.rep 0 none true (RE.cls true [('}', '}')])])] ++ lits ("\x7d") ++ [RE.rep 0 none true (RE.ch ' ')]) ([TItem.lit (str ("\n*** ")), TItem.grp 1]),
  LOp.sub ([RE.bol, RE.rep 0 none true (RE.ch ' ')] ++ lits ("\\begin\x7bblock\x7d") ++ [RE.rep 0 none true (RE.cls false [('*', '*'), (' ', ' ')])] ++ lits ("\x7b\x7d") ++ [RE.rep 0 none true (RE.ch ' ')] ++ lits ("\n")) ([]),
  LOp.sub ([RE.rep 0 none true (RE.ch ' ')] ++ lits ("\\begin\x7bblock\x7d") ++ [RE.rep 0 none true (RE.cls false [('*', '*'), (' ', ' ')])] ++ lits ("\x7b\x7d") ++ [RE.rep 0 none true (RE.ch ' ')]) ([]),
  LOp.sub ([RE.bol, RE.rep 0 none true (RE.ch ' ')] ++ lits ("\\begin\x7bblock\x7d") ++ [RE.rep 0 none true (RE.cls false [('*', '*'), (' ', ' ')])] ++ lits ("\x7b") ++ [RE.grp 1 ([RE.rep 0 none true (RE.cls true [('}', '}')])])] ++ lits ("\x7d") ++ [RE.rep 0 none true (RE.ch ' ')] ++ lits ("\n")) ([TItem.lit (str ("\n**** ")), TItem.grp 1]),
  LOp.sub ([RE.rep 0 none true (RE.ch ' ')] ++ lits ("\\begin\x7bblock\x7d") ++ [RE.rep 0 none true (RE.cls false [('*', '*'), (' ', ' ')])] ++ lits ("\x7b") ++ [RE.grp 1 ([RE.rep 0 none true (RE.cls true [('}', '}')])])] ++ lits ("\x7d") ++ [RE.rep 0 none true (RE.ch ' ')]) ([TItem.lit (str ("\n**** ")), TItem.grp 1]),
  LOp.sub ([RE.bol, RE.rep 0 none true (RE.ch ' ')] ++ lits ("\\end\x7bblock\x7d") ++ [RE.rep 0 none true (RE.ch ' ')] ++ lits ("\n")) ([]),
  LOp.sub ([RE.bol, RE.rep 0 none true (RE.ch ' ')] ++ lits ("\\begin\x7bcolumns\x7d") ++ [RE.rep 0 none true (RE.cls false [('*', '*'), (' ', ' ')]), RE.rep 0 none true (RE.ch ' ')] ++ lits ("\n")) ([]),
  LOp.sub ([RE.bol, RE.rep 0 none true (RE.ch ' ')] ++ lits ("\\end\x7bcolumns\x7d") ++ [RE.rep 0 none true (RE.ch ' ')] ++ lits ("\n")) ([]),
  LOp.sub ([RE.bol, RE.rep 0 none true (RE.ch ' ')] ++ lits ("\\begin\x7bcolumn\x7d") ++ [RE.rep 0 none true (RE.cls false [('*', '*'), (' ', ' ')])] ++ lits ("\x7b") ++ [RE.rep 0 none true (RE.dot)] ++ lits ("\x7d") ++ [RE.rep 0 none true (RE.ch ' ')] ++ lits ("\n")) ([]),
  LOp.sub ([RE.bol, RE.rep 0 none true (RE.ch ' ')] ++ lits ("\\end\x7bcolumn\x7d") ++ [RE.rep 0 none true (RE.ch ' ')] ++ lits ("\n")) ([]),
  LOp.sub ([RE.bol, RE.rep 0 none true (RE.ch ' ')] ++ lits ("\\uncover<") ++ [RE.rep 0 none true (RE.cls false [('0', '9')])] ++ lits ("->\x7b") ++ [RE.rep 0 none true (RE.ch ' ')] ++ lits ("\n")) ([]),
  LOp.sub (lits ("\\uncover<") ++ [RE.rep 0 none true (RE.cls false [('0', '9')])] ++ lits ("->\x7b")) ([]),
  LOp.sub (lits ("\x7b\\bluetext ") ++ [RE.grp 1 ([RE.rep 0 none true (RE.cls true [('{', '{'), ('}', '}')])])] ++ lits ("\x7d")) ([TItem.lit (str (" blue: ")), TItem.grp 1]),
  LOp.sub (lits ("\x7b\\redtext ") ++ [RE.grp 1 ([RE.rep 0 none true (RE.cls true [('{', '{'), ('}', '}')])])] ++ lits ("\x7d")) ([TItem.lit (str (" red: ")), TItem.grp 1]),
  LOp.sub (lits ("\x7b\\purpletext ") ++ [RE.grp 1 ([RE.rep 0 none true (RE.cls true [('{', '{'), ('}', '}')])])] ++ lits ("\x7d")) ([TItem.lit (str (" purple: ")), TItem.grp 1]),
  LOp.sub (lits ("\x7b\\greentext ") ++ [RE.grp 1 ([RE.rep 0 none true (RE.cls true [('{', '{'), ('}', '}')])])] ++ lits ("\x7d")) ([TItem.lit (str (" green: ")), TItem.grp 1]),
  LOp.sub (lits ("\x7b\\yellowtext ") ++ [RE.grp 1 ([RE.rep 0 none true (RE.cls true [('{', '{'), ('}', '}')])])] ++ lits ("\x7d")) ([TItem.lit (str (" yellow: ")), TItem.grp 1]),
  LOp.sub (lits ("\\bluetext ")) ([TItem.lit (str ("blue: "))]),
  LOp.sub (lits ("\\redtext ")) ([TItem.lit (str ("red: "))]),
  LOp.sub (lits ("\\purpletext ")) ([TItem.lit (str ("purple: "))]),
  LOp.sub (lits ("\\greentext ")) ([TItem.lit (str ("green: "))]),
  LOp.sub (lits ("\\yellowtext ")) ([TItem.lit (str ("yellow: "))]),
  LOp.sub (lits ("\\normaltext")) ([]),
  LOp.sub (lits ("\\label") ++ [RE.rep 0 none true (RE.cls false [('*', '*'), (' ', ' ')])] ++ lits ("\x7b") ++ [RE.grp 1 ([RE.rep 0 none true (RE.cls true [('}', '}')])])] ++ lits ("\x7d")) ([TItem.lit (str ("label:")), TItem.grp 1]),
  LOp.sub (lits ("\\ref") ++ [RE.rep 0 none true (RE.cls false [('*', '*'), (' ', ' ')])] ++ lits ("\x7b") ++ [RE.grp 1 ([RE.rep 0 none true (RE.cls true [('}', '}')])])] ++ lits ("\x7d")) ([TItem.lit (str ("ref:")), TItem.grp 1]),
  LOp.sub (lits ("\\url") ++ [RE.rep 0 none true (RE.cls false [('*', '*'), (' ', ' ')])] ++ lits ("\x7b") ++ [RE.grp 1 ([RE.rep 0 none true (RE.cls true [('}', '}')])])] ++ lits ("\x7d")) ([TItem.lit (str (" ")), TItem.grp 1, TItem.lit (str (" "))]),
  LOp.sub (lits ("\\href") ++ [RE.rep 0 none true (RE.cls false [('*', '*'), (' ', ' ')])] ++ lits ("\x7b") ++ [RE.grp 1 ([RE.rep 0 none true (RE.cls true [('}', '}')])])] ++ lits ("\x7d\x7b") ++ [RE.grp 2 ([RE.rep 0 none true (RE.cls true [('}', '}')])])] ++ lits ("\x7d")) ([TItem.lit (str (" ")), TItem.grp 2, TItem.lit (str (" (")), TItem.grp 1, TItem.lit (str (") "))]),
  LOp.sub (lits ("\\textbf") ++ [RE.rep 0 none true (RE.cls false [('*', '*'), (' ', ' ')])] ++ lits ("\x7b") ++ [RE.grp 1 ([RE.rep 0 none true (RE.cls true [('}', '}')])])] ++ lits ("\x7d")) ([TItem.lit (str ("*")), TItem.grp 1, TItem.lit (str ("*"))]),
  LOp.sub (lits ("\\textit") ++ [RE.rep 0 none true (RE.cls false [('*', '*'), (' ', ' ')])] ++ lits ("\x7b") ++ [RE.grp 1 ([RE.rep 0 none true (RE.cls true [('}', '}')])])] ++ lits ("\x7d")) ([TItem.lit (str ("/")), TItem.grp 1, TItem.lit (str ("/"))]),
  LOp.sub (lits ("\\textsc") ++ [RE.rep 0 none true (RE.cls false [('*', '*'), (' ', ' ')])] ++ lits ("\x7b") ++ [RE.grp 1 ([RE.rep 0 none true (RE.cls true [('}', '}')])])] ++ lits ("\x7d")) ([TItem.lit (str ("/")), TItem.grp 1, TItem.lit (str ("/"))]),
  LOp.sub (lits ("\\emph") ++ [RE.rep 0 none true (RE.cls false [('*', '*'), (' ', ' ')])] ++ lits ("\x7b") ++ [RE.grp 1 ([RE.rep 0 none true (RE.cls true [('}', '}')])])] ++ lits ("\x7d")) ([TItem.lit (str ("/")), TItem.grp 1, TItem.lit (str ("/"))]),
  LOp.sub (lits ("\\uline") ++ [RE.rep 0 none true (RE.cls false [('*', '*'), (' ', ' ')])] ++ lits ("\x7b") ++ [RE.grp 1 ([RE.rep 0 none true (RE.cls true [('}', '}')])])] ++ lits ("\x7d")) ([TItem.lit (str ("_")), TItem.grp 1, TItem.lit (str ("_"))]),
  LOp.sub (lits ("\x7b\\bf") ++ [RE.rep 0 none true (RE.ch ' '), RE.grp 1 ([RE.rep 0 none true (RE.cls true [('}', '}')])])] ++ lits ("\x7d")) ([TItem.lit (str ("*")), TItem.grp 1, TItem.lit (str ("*"))]),
  LOp.sub (lits ("\x7b\\it") ++ [RE.rep 0 none true (RE.ch ' '), RE.grp 1 ([RE.rep 0 none true (RE.cls true [('}', '}')])])] ++ lits ("\x7d")) ([TItem.lit (str ("/")), TItem.grp 1, TItem.lit (str ("/"))]),
  LOp.sub (lits ("\x7b\\em") ++ [RE.rep 0 none true (RE.ch ' '), RE.grp 1 ([RE.rep 0 none true (RE.cls true [('}', '}')])])] ++ lits ("\x7d")) ([TItem.lit (str ("/")), TItem.grp 1, TItem.lit (str ("/"))]),
  LOp.sub (lits ("\x7b\\sc") ++ [RE.rep 0 none true (RE.ch ' '), RE.grp 1 ([RE.rep 0 none true (RE.cls true [('}', '}')])])] ++ lits ("\x7d")) ([TItem.lit (str ("/")), TItem.grp 1, TItem.lit (str ("/"))]),
  LOp.sub (lits ("\\bf\x7b") ++ [RE.grp 1 ([RE.rep 0 none true (RE.cls true [('}', '}')])])] ++ lits ("\x7d")) ([TItem.lit (str ("*")), TItem.grp 1, TItem.lit (str ("*"))]),
  LOp.sub (lits ("\\it\x7b") ++ [RE.grp 1 ([RE.rep 0 none true (RE.cls true [('}', '}')])])] ++ lits ("\x7d")) ([TItem.lit (str ("/")), TItem.grp 1, TItem.lit (str ("/"))]),
  LOp.sub (lits ("\\em\x7b") ++ [RE.grp 1 ([RE.rep 0 none true (RE.cls true [('}', '}')])])] ++ lits ("\x7d")) ([TItem.lit (str ("/")), TItem.grp 1, TItem.lit (str ("/"))]),
  LOp.sub (lits ("\\sc\x7b") ++ [RE.grp 1 ([RE.rep 0 none true (RE.cls true [('}', '}')])])] ++ lits ("\x7d")) ([TItem.lit (str ("/")), TItem.grp 1, TItem.lit (str ("/"))]),
  LOp.sub (lits ("\\textrm") ++ [RE.rep 0 none true (RE.cls false [('*', '*'), (' ', ' ')])] ++ lits ("\x7b") ++ [RE.grp 1 ([RE.rep 0 none true (RE.cls true [('}', '}')])])] ++ lits ("\x7d")) ([TItem.grp 1]),
  LOp.sub (lits ("\\mathbf") ++ [RE.rep 0 none true (RE.cls false [('*', '*'), (' ', ' ')])] ++ lits ("\x7b") ++ [RE.grp 1 ([RE.rep 0 none true (RE.cls true [('}', '}')])])] ++ lits ("\x7d")) ([TItem.lit (str ("*")), TItem.grp 1, TItem.lit (str ("*"))]),
  LOp.sub (lits ("\\mathrm") ++ [RE.rep 0 none true (RE.cls false [('*', '*'), (' ', ' ')])] ++ lits ("\x7b") ++ [RE.grp 1 ([RE.rep 0 none true (RE.cls true [('}', '}')])])] ++ lits ("\x7d")) ([TItem.grp 1]),
  LOp.sub ([RE.rep 0 none true (RE.ch ' ')] ++ lits ("\\textgreater\x7b\x7d") ++ [RE.rep 0 none true (RE.ch ' ')]) ([TItem.lit (str (" > "))]),
  LOp.sub ([RE.rep 0 none true (RE.ch ' ')] ++ lits ("\\textless\x7b\x7d") ++ [RE.rep 0 none true (RE.ch ' ')]) ([TItem.lit (str (" < "))]),
  LOp.sub (lits ("\\textasciicircum\x7b\x7d")) ([TItem.lit (str ("^"))]),
  LOp.sub (lits ("\\textasciicircum")) ([TItem.lit (str ("^"))]),
  LOp.sub ([RE.bol, RE.grp 1 ([RE.rep 0 none true (RE.cls true [('$', '$')])] ++ lits ("$"))] ++ lits (" ")) ([TItem.grp 1]),
  LOp.sub (lits (" ") ++ [RE.grp 1 (lits ("$") ++ [RE.rep 0 none true (RE.cls true [('$', '$')]), RE.eol])]) ([TItem.grp 1]),
  LOp.sub ([RE.bol, RE.rep 0 none true (RE.ch ' ')] ++ lits ("$") ++ [RE.grp 1 ([RE.rep 0 none true (RE.cls true [('$', '$')])])] ++ lits ("$") ++ [RE.rep 0 none true (RE.ch ' '), RE.eol]) ([TItem.lit (str ("\\[ ")), TItem.grp 1, TItem.lit (str (" \\]\n"))]),
  LOp.sub ([RE.rep 1 none true (RE.ch ' ')] ++ lits ("$") ++ [RE.rep 1 none true (RE.ch ' '), RE.grp 1 ([RE.rep 1 none true (RE.cls true [('$', '$')])]), RE.rep 1 none true (RE.ch ' ')] ++ lits ("$") ++ [RE.rep 1 none true (RE.ch ' ')]) ([TItem.lit (str ("$ ")), TItem.grp 1, TItem.lit (str (" $"))]),
  LOp.sub (lits (" & ")) ([TItem.lit (str (" | "))]),
  LOp.sub (lits ("\\\\")) ([TItem.lit (str (" "))]),
  LOp.sub (lits ("\\&")) ([TItem.lit (str ("&"))]),
  LOp.sub (lits ("\\ldots") ++ [RE.rep 0 none true (RE.ch '\\')]) ([TItem.lit (str ("..."))]),
  LOp.sub (lits ("\\LaTeX") ++ [RE.rep 0 none true (RE.ch '\\')]) ([TItem.lit (str ("LaTeX"))]),
  LOp.sub (lits ("\\BibTeX") ++ [RE.rep 0 none true (RE.ch '\\')]) ([TItem.lit (str ("BibTeX"))]),
  LOp.sub (lits (".\\ ")) ([TItem.lit (str (". "))]),
  LOp.sub (lits ("\\int") ++ [RE.rep 0 none true (RE.ch ' ')] ++ lits ("\\int") ++ [RE.rep 0 none true (RE.ch ' ')] ++ lits ("\\int")) ([TItem.lit (str ("\\iiint"))]),
  LOp.sub (lits ("\\int") ++ [RE.rep 0 none true (RE.ch ' ')] ++ lits ("\\int")) ([TItem.lit (str ("\\iint"))]),
  LOp.sub (lits ("||") ++ [RE.grp 1 ([RE.rep 0 none true (RE.cls true [('|', '|')])])] ++ lits ("||")) ([TItem.lit (str ("$\\norm\x7b")), TItem.grp 1, TItem.lit (str ("\x7d$"))]),
  LOp.sub (lits ("\\footnote\x7b") ++ [RE.grp 1 ([RE.rep 0 none true (RE.cls true [('}', '}')])])] ++ lits ("\x7d")) ([TItem.lit (str (" [fn:1: ")), TItem.grp 1, TItem.lit (str ("]"))]),
  LOp.sub (lits ("\\footnote\x7b")) ([TItem.lit (str (" [fn:1: "))]),
  LOp.sub ([RE.bol, RE.rep 1 (some 99) true (RE.ch ' ')]) ([]),
  LOp.sub ([RE.rep 1 (some 99) true (RE.ch ' '), RE.eol]) ([])
]

/-- Pattern `\\author{.*\}`: search pattern of read_header for author lines. -/
def patAuthor : List RE := lits ("\\author\x7b") ++ [RE.rep 0 none true (RE.dot)] ++ lits ("\x7d")

/-- Pattern `\{.*\}`: greedy braced-span search of read_header. -/
def patBracedGreedy : List RE := lits ("\x7b") ++ [RE.rep 0 none true (RE.dot)] ++ lits ("\x7d")

/-- Pattern `\\cite.*?\{`: first-citation search of citations. -/
def patCiteToBrace : List RE := lits ("\\cite") ++ [RE.rep 0 none false (RE.dot)] ++ lits ("\x7b")

/-- Pattern `\\cit[a-z]+\{`: trivial-citation test of citations. -/
def patTrivCite : List RE := lits ("\\cit") ++ [RE.rep 1 none true (RE.cls false [('a', 'z')])] ++ lits ("\x7b")

/-- Pattern `\\cit[a-z]+\[`: bracketed-citation search of citations. -/
def patCiteToBk : List RE := lits ("\\cit") ++ [RE.rep 1 none true (RE.cls false [('a', 'z')])] ++ lits ("[")

/-- Pattern `\{.*?\}`: lazy braced-span search. -/
def patBracedLazy : List RE := lits ("\x7b") ++ [RE.rep 0 none false (RE.dot)] ++ lits ("\x7d")

/-- Pattern `^.*?\}`: prefix-to-first-close-brace search of section_commands. -/
def patUpToRBrace : List RE := [RE.bol, RE.rep 0 none false (RE.dot)] ++ lits ("\x7d")

/-- Pattern `^.*?\[`: prefix-to-first-open-bracket search of section_commands. -/
def patUpToLBk : List RE := [RE.bol, RE.rep 0 none false (RE.dot)] ++ lits ("[")

/-- Pattern `^.*?\{`: prefix-to-first-open-brace search of section_commands. -/
def patUpToLBrace : List RE := [RE.bol, RE.rep 0 none false (RE.dot)] ++ lits ("\x7b")

/-- Pattern `\[.*?\]`: lazy bracketed-span search of section_commands. -/
def patBkLazy : List RE := lits ("[") ++ [RE.rep 0 none false (RE.dot)] ++ lits ("]")

/-- Pattern `^\\begin{.*?\}`: environment-begin search of special_environments. -/
def patBeginEnv : List RE := [RE.bol] ++ lits ("\\begin\x7b") ++ [RE.rep 0 none false (RE.dot)] ++ lits ("\x7d")

/-- Pattern ` *\n *\n *\n`: blank-run pattern of the output post-process. -/
def patBlank3 : List RE := [RE.rep 0 none true (RE.ch ' ')] ++ lits ("\n") ++ [RE.rep 0 none true (RE.ch ' ')] ++ lits ("\n") ++ [RE.rep 0 none true (RE.ch ' ')] ++ lits ("\n")

/-- The Line Rewriter (source lines 467-739): applies the ordered
substitution table to one line of text. -/
def line_latex_to_orgmode (line : Str) : Str := lOps.foldl applyLOp line

/-! ### The construct recognizers -/

/-- Result of offering a line to a recognizer: the text the call wrote
to the output file, and either the Python exception that aborted the
call, or `(claimed?, remaining input lines)`. -/
abbrev RecRes := Str × Except PyErr (Bool × List Str)

/-- The bracket-span extractor `get_string_between_brackets`
(source lines 137-162), worker loop.  State: the remaining characters,
the open count `s`, the close count `e`, the current index `i`, and the
count `j` of characters seen before the first opening bracket. -/
def gsbbAux (start stop : Char) (orig : Str) : Str → Nat → Nat → Nat → Nat → Str × Nat × Nat
  | [], _, _, i, j => ([], j, i)
  | c :: cr, s, e, i, j =>
    let s2 := if c = start then s + 1 else s
    let e2 := if c ≠ start ∧ c = stop then e + 1 else e
    let j2 := if s2 = 0 then j + 1 else j
    if s2 = e2 ∧ s2 > 0 then (pySlice orig (j2 + 1) i, j2, i)
    else gsbbAux start stop orig cr s2 e2 (i + 1) j2

/-- The bracket-span extractor (source lines 137-162): returns the text
between the first opening bracket and its balancing closing bracket,
the offset `j` of the opening bracket, and the index `i` of the closing
bracket (`brackets` supplies the two delimiter characters). -/
def get_string_between_brackets (brackets : Str) (string : Str) : Str × Nat × Nat :=
  match brackets with
  | b1 :: b2 :: _ => gsbbAux b1 b2 string string 0 0 0 0
  | _ => ([], 0, 0)

/-- Transformation of one non-blank preamble line: body of the `while`
loop of `read_header` (source lines 115-131). -/
def headerLine (nl : Str) : Except PyErr Str :=
  if strContains nl (str ("\\author")) then
    match reSearch patAuthor nl with
    | none => .error .attributeError
    | some (st, en, _) =>
      .ok (str ("#+author: ") ++ ((pySlice nl st en).drop 8).dropLast ++ str ("\n"))
  else if strContains nl (str ("\\date")) then
    match reSearch patBracedGreedy nl with
    | none => .error .attributeError
    | some (st, en, _) =>
      .ok (str ("#+date: ") ++ ((pySlice nl st en).drop 1).dropLast ++ str ("\n"))
  else if strContains nl (str ("\\title")) then
    match reSearch patBracedGreedy nl with
    | none => .error .attributeError
    | some (st, en, _) =>
      .ok (str ("#+title: ") ++ ((pySlice nl st en).drop 1).dropLast ++ str ("\n"))
  else if strContains nl (str ("\\email")) then
    match reSearch patBracedGreedy nl with
    | none => .error .attributeError
    | some (st, en, _) =>
      .ok (str ("#+email: ") ++ ((pySlice nl st en).drop 1).dropLast ++ str ("\n"))
  else .ok (str ("#+latex_header: ") ++ nl)

/-- Preamble loop of `read_header` (source lines 112-132): transform and
write each non-blank line until `begin{document}` is seen; `next()` on
an exhausted stream raises `StopIteration`. -/
def headerLoop : Str → List Str → Str → RecRes
  | nl, lines, acc =>
    if strContains nl (str ("begin\x7bdocument\x7d")) then (acc, .ok (true, lines))
    else
      match (if pyStrip nl ≠ [] then headerLine nl else .ok []) with
      | .error e => (acc, .error e)
      | .ok p =>
        match lines with
        | [] => (acc ++ p, .error .stopIteration)
        | l :: rest => headerLoop l rest (acc ++ p)

/-- The header recognizer `read_header` (source lines 95-134). -/
def read_header (nl : Str) (lines : List Str) : RecRes :=
  if strContains nl (str ("documentclass")) then headerLoop nl lines []
  else ([], .ok (false, lines))

/-- Brace-balancing line joiner of `section_commands` (source lines
331-336): pull further lines, joined with `\n`, until brace counts
match; more than 3 pulls raise the `ValueError` of line 336. -/
def sectionJoin : Str → List Str → Nat → Except PyErr (Str × List Str)
  | nl, lines, i =>
    if List.count '{' nl = List.count '}' nl then .ok (nl, lines)
    else
      match lines with
      | [] => .error .stopIteration
      | l :: rest =>
        let nl2 := nl ++ '\n' :: l
        if i + 1 > 3 then
          .error (.valueError (str ("Unable to find end of section in ") ++ nl2))
        else sectionJoin nl2 rest (i + 1)

/-- The fixed section-marker table of `section_commands` (lines 317-325). -/
def markerLookup (t : Str) : Option Str :=
  if t = str ("chapter") then some (str ("* "))
  else if t = str ("section") then some (str ("* "))
  else if t = str ("subsection") then some (str ("** "))
  else if t = str ("abstract") then some (str ("** "))
  else if t = str ("subsubsection") then some (str ("*** "))
  else if t = str ("paragraph") then some (str ("**** "))
  else if t = str ("subparagraph") then some (str ("***** "))
  else none

/-- The sectioning recognizer `section_commands` (source lines 303-371). -/
def section_commands (nl0 : Str) (lines : List Str) : RecRes :=
  if ¬(strContains nl0 (str ("chapter")) || strContains nl0 (str ("section"))) then
    ([], .ok (false, lines))
  else
    match sectionJoin nl0 lines 0 with
    | .error e => ([], .error e)
    | .ok (nl, lines2) =>
      match reSearch patUpToRBrace nl with
      | none => ([], .error .attributeError)
      | some (st, en, _) =>
        let section_string := pySlice nl st en
        match
          (if strContains section_string (str ("[")) then
            match reSearch patUpToLBk nl with
            | none => .error .attributeError
            | some (st2, en2, _) =>
              match reSearch patBkLazy section_string with
              | none => .error .attributeError
              | some (st3, en3, _) =>
                .ok (((pySlice nl st2 en2).drop 1).dropLast,
                  str ("PROPERTIES:\n:ALT_TITLE: ") ++ pySlice section_string st3 en3 ++
                    str ("\n:END:\n"))
          else
            match reSearch patUpToLBrace nl with
            | none => (.error .attributeError : Except PyErr (Str × Str))
            | some (st2, en2, _) => .ok (((pySlice nl st2 en2).drop 1).dropLast, [])) with
        | .error e => ([], .error e)
        | .ok (section_type, short_title) =>
          match reSearch patBracedLazy section_string with
          | none => ([], .error .attributeError)
          | some (st4, en4, _) =>
            let section_title := ((pySlice section_string st4 en4).drop 1).dropLast
            match (pySplit nl section_string).get? 1 with
            | none => ([], .error .indexError)
            | some text_after =>
              match markerLookup section_type with
              | none =>
                ([], .error (.valueError
                  (str ("marker = ") ++ section_type ++ str (" is not valid"))))
              | some marker =>
                let o1 := marker ++ section_title ++ str ("\n")
                let o2 := if ¬short_title = [] then o1 ++ short_title else o1
                let o3 := if ¬text_after = [] then o2 ++ text_after else o2
                (o3, .ok (true, lines2))

/-- Environment-consuming loop of `special_environments` (source lines
397-400).  The original writes the current line only when it is
non-blank, and pulls the next line *inside* that conditional, so a
blank line before the end token makes the `while` loop spin forever;
this outcome is reported as `nonTermination`. -/
def specialLoop (endTok : Str) : Str → List Str → Str × Except PyErr (List Str)
  | nl, lines =>
    if strContains nl endTok then ([], .ok lines)
    else if pyStrip nl ≠ [] then
      match lines with
      | [] => (nl, .error .stopIteration)
      | l :: rest =>
        let (b, r) := specialLoop endTok l rest
        (nl ++ b, r)
    else ([], .error .nonTermination)

/-- The special-environment recognizer `special_environments`
(source lines 374-406); the `exclude_env` list of line 387 is empty. -/
def special_environments (nl : Str) (lines : List Str) : RecRes :=
  match reSearch patBeginEnv nl with
  | none => ([], .ok (false, lines))
  | some (st, en, _) =>
    let env := ((pySlice nl st en).drop 7).dropLast
    let endTok := str ("end\x7b") ++ env ++ str ("\x7d")
    match specialLoop endTok nl lines with
    | (body, .ok lines2) =>
      (str ("\n#+BEGIN_EXPORT latex\n") ++ body ++ str ("\\end\x7b") ++ env ++
        str ("\x7d\n#+END_EXPORT\n\n"), .ok (true, lines2))
    | (body, .error e) => (str ("\n#+BEGIN_EXPORT latex\n") ++ body, .error e)

/-- Key-list builder of the citation recognizer (source lines 267-272):
split on commas, prefix each stripped key with `&`, join with `;`
(the final `;` is removed by the `cl[:-1]` slice). -/
def orgKeyList (cl : Str) : Str :=
  ((pySplitCh ',' cl).foldl (fun acc e => acc ++ '&' :: pyStrip e ++ [';']) []).dropLast

/-- The four output shapes of the citation builder (source lines 279-286). -/
def citeShape (ct b1 b2 cl : Str) : Str :=
  if b1 ≠ [] ∧ b2 = [] then ct ++ ':' :: b1 ++ ';' :: cl ++ [';']
  else if b1 ≠ [] ∧ b2 ≠ [] then ct ++ ':' :: b1 ++ ';' :: cl ++ ';' :: b2
  else if b1 = [] ∧ b2 ≠ [] then ct ++ str (":;") ++ cl ++ ';' :: b2
  else ct ++ ':' :: cl

/-- Output construction and trailing-text re-dispatch of `citations`
(source lines 257-300): split the line around the reconstructed cite
expression, rewrite and write the before-text together with the built
org citation, and offer the after-text (via `rec`, the citation
recognizer itself at smaller fuel) to `citations` again, writing it
verbatim when no further citation is found. -/
def citeEmit (rec : Str → List Str → RecRes) (nl : Str) (lines : List Str)
    (ct b1 b2 csForCe cl : Str) : RecRes :=
  let ce := '\\' :: csForCe ++ '{' :: cl ++ ['}']
  match pySplit nl ce with
  | [pre, post] =>
    let cs := str ("[[") ++ citeShape ct b1 b2 (orgKeyList cl) ++ str ("]]")
    let out := line_latex_to_orgmode (pre ++ cs)
    if post ≠ [] then
      match rec post lines with
      | (o2, .ok (true, l2)) => (out ++ o2, .ok (true, l2))
      | (o2, .ok (false, l2)) => (out ++ o2 ++ post, .ok (true, l2))
      | (o2, .error e) => (out ++ o2, .error e)
    else (out, .ok (true, lines))
  | _ => ([], .error (.valueError (str ("unpack"))))

/-- The citation recognizer `citations` (source lines 165-300), with
explicit fuel for its recursive re-dispatch of the text after a
converted citation; the recursion strictly shrinks the working line, so
`nl.length + 1` fuel (supplied by `citations`) always suffices. -/
def citationsF : Nat → Str → List Str → RecRes
  | 0, _, _ => ([], .error .nonTermination)
  | f + 1, nl, lines =>
    if ¬ strContains nl (str ("\\cite")) then ([], .ok (false, lines))
    else if List.count '{' nl ≠ List.count '}' nl then
      -- First iteration of the brace-balancing `while` loop of lines
      -- 191-198: `next(lines)` is evaluated first (StopIteration on an
      -- exhausted stream); otherwise the statement `i = i + 1` reads the
      -- local `i`, which is never assigned (line 175 initialises `i1`
      -- twice instead), raising UnboundLocalError.
      match lines with
      | [] => ([], .error .stopIteration)
      | _ :: _ => ([], .error (.unboundLocal (str ("i"))))
    else
      match reSearch patCiteToBrace nl with
      | none => ([], .error .attributeError)
      | some (t1, t2, _) =>
        let temp := pySlice nl t1 t2
        match reSearch patTrivCite temp with
        | some (c1, c2, _) =>
          let ct := ((pySlice temp c1 c2).drop 1).dropLast
          let ssPat := RE.ch '\\' :: ct.map RE.ch ++
            [RE.ch '{', RE.rep 0 none false RE.dot, RE.ch '}']
          match reSearch ssPat nl with
          | none => ([], .error .attributeError)
          | some (s1, s2, _) =>
            let cs := pySlice nl s1 s2
            match reSearch patBracedLazy cs with
            | none => ([], .error .attributeError)
            | some (u1, u2, _) =>
              let cl := ((pySlice cs u1 u2).drop 1).dropLast
              citeEmit (citationsF f) nl lines ct [] [] ct cl
        | none =>
          match reSearch patCiteToBk nl with
          | none => ([], .error .attributeError)
          | some (o1, o2, _) =>
            let tempM := pySlice nl o1 o2
            let ct := (tempM.drop 1).dropLast
            match pyIndex nl tempM with
            | none => ([], .error (.valueError (str ("substring not found"))))
            | some ix =>
              let temp2 := nl.drop ix
              let gb1 := get_string_between_brackets (str ("[]")) temp2
              let b1 := gb1.1
              let i1 := gb1.2.2
              let cs1 := if b1 ≠ [] then ct ++ '[' :: b1 ++ [']'] else ct ++ str ("[]")
              match temp2.get? (i1 + 1) with
              | none => ([], .error .indexError)
              | some c =>
                let st2 :=
                  if c = '[' then
                    let gb2 := get_string_between_brackets (str ("[]")) (temp2.drop (i1 + 1))
                    (gb2.1, i1 + gb2.2.2,
                      if gb2.1 ≠ [] then cs1 ++ '[' :: gb2.1 ++ [']'] else cs1 ++ str ("[]"))
                  else (([] : Str), i1, cs1)
                match reSearch patBracedLazy (temp2.drop (st2.2.1 + 1)) with
                | none => ([], .error .attributeError)
                | some (u1, u2, _) =>
                  let cl := ((pySlice (temp2.drop (st2.2.1 + 1)) u1 u2).drop 1).dropLast
                  citeEmit (citationsF f) nl lines ct b1 st2.1 st2.2.2 cl


/-- The citation recognizer with its fuel instantiated. -/
def citations (nl : Str) (lines : List Str) : RecRes :=
  citationsF (nl.length + 1) nl lines

/-! ### The dispatcher loop and the whole-file conversion -/

/-- The dispatcher loop of `file_latex_to_orgmode` (source lines
421-445), with fuel bounding the number of iterations (each iteration
consumes at least one input line, so `lines.length + 1` suffices).
`StopIteration` raised anywhere inside the loop is caught by the
top-level handler and ends the run normally; every other exception
aborts the run. -/
def mainPassF : Nat → List Str → Str × Except PyErr Unit
  | 0, _ => ([], .ok ())
  | _ + 1, [] => ([], .ok ())
  | f + 1, nl :: rest =>
    match read_header nl rest with
    | (o, .error .stopIteration) => (o, .ok ())
    | (o, .error e) => (o, .error e)
    | (o, .ok (true, rest2)) => let n := mainPassF f rest2; (o ++ n.1, n.2)
    | (_, .ok (false, _)) =>
      match section_commands nl rest with
      | (o, .error .stopIteration) => (o, .ok ())
      | (o, .error e) => (o, .error e)
      | (o, .ok (true, rest2)) => let n := mainPassF f rest2; (o ++ n.1, n.2)
      | (_, .ok (false, _)) =>
        match special_environments nl rest with
        | (o, .error .stopIteration) => (o, .ok ())
        | (o, .error e) => (o, .error e)
        | (o, .ok (true, rest2)) => let n := mainPassF f rest2; (o ++ n.1, n.2)
        | (_, .ok (false, _)) =>
          match citations nl rest with
          | (o, .error .stopIteration) => (o, .ok ())
          | (o, .error e) => (o, .error e)
          | (o, .ok (true, rest2)) => let n := mainPassF f rest2; (o ++ n.1, n.2)
          | (_, .ok (false, _)) =>
            let n := mainPassF f rest
            (line_latex_to_orgmode nl ++ n.1, n.2)

/-- The main conversion pass over the input lines. -/
def mainPass (ls : List Str) : Str × Except PyErr Unit := mainPassF (ls.length + 1) ls

/-- One blank-run substitution pass of the output post-process:
`re.sub(r" *\n *\n *\n", r"\n\n", lines)` (source line 458). -/
def collapseBlank (s : Str) : Str := reSub patBlank3 [TItem.lit (str ("\n\n"))] s

/-- The whole-file conversion `file_latex_to_orgmode` (source lines
409-464): run the main pass and, on normal completion, re-read the
output and apply the blank-line substitution ten times (lines 457-458)
before writing it back.  An exception aborts the run before the
post-process. -/
def file_latex_to_orgmode (ls : List Str) : Except PyErr Str :=
  match mainPass ls with
  | (out, .ok ()) => .ok ((List.range 10).foldl (fun s _ => collapseBlank s) out)
  | (_, .error e) => .error e

/-! ### Open conditions and dispatch ownership -/

/-- Open condition of the header recognizer (source line 112). -/
def headerOpen (nl : Str) : Bool := strContains nl (str ("documentclass"))

/-- Open condition of the sectioning recognizer (source line 328). -/
def sectionOpen (nl : Str) : Bool :=
  strContains nl (str ("chapter")) || strContains nl (str ("section"))

/-- Open condition of the special-environment recognizer (source line 388). -/
def specialOpen (nl : Str) : Bool := (reSearch patBeginEnv nl).isSome

/-- Open condition of the citation recognizer (source line 188). -/
def citeOpen (nl : Str) : Bool := strContains nl (str ("\\cite"))

/-- Does any recognizer's open condition match the line? -/
def openAny (nl : Str) : Bool :=
  headerOpen nl || sectionOpen nl || specialOpen nl || citeOpen nl

/-- The handler that ends up processing a pending line. -/
inductive Handler where
  | header
  | sectioning
  | specialEnv
  | citation
  | rewriter
  deriving DecidableEq, Repr

/-- Ownership per the dispatcher chain of `file_latex_to_orgmode`
(source lines 430-441): the four recognizers are offered the line in
source order and the first whose open condition holds takes it;
otherwise the line goes to the Line Rewriter. -/
def owner (nl : Str) : Handler :=
  if headerOpen nl then .header
  else if sectionOpen nl then .sectioning
  else if specialOpen nl then .specialEnv
  else if citeOpen nl then .citation
  else .rewriter

/-- Modelled from the spec: the open condition of the comment-run
recognizer of spec section 4.2 ("opens when a line starts with the
comment marker"); the source has no such recognizer. -/
def commentOpenSpec (nl : Str) : Bool :=
  match nl with
  | '%' :: _ => true
  | _ => false

/-- Modelled from the spec: the open condition of the bibliography
declaration recognizer of spec section 4.2 (a single-line construct on
a bibliography command); the source has no such recognizer. -/
def bibliographyOpenSpec (nl : Str) : Bool :=
  strContains nl (str ("\\bibliography\x7b"))

/-! ### Helper lemmas -/

/-- Occurrences of a character in a string (used to state when a string
is well nested with respect to a delimiter pair). -/
def countc (c : Char) : Str → Nat
  | [] => 0
  | x :: xs => (if x = c then 1 else 0) + countc c xs

theorem takeLen (a : Str) : ∀ b : Str, (a ++ b).take a.length = a := by
  induction a with
  | nil => intro b; rfl
  | cons c cr ih => intro b; simp [ih]

theorem dropLenSucc (a : Str) (x : Char) : ∀ b : Str, (a ++ x :: b).drop (a.length + 1) = b := by
  induction a with
  | nil => intro b; rfl
  | cons c cr ih =>
    intro b
    simp only [List.cons_append, List.length_cons, List.drop_succ_cons]
    exact ih b

/-- Invariant run of the `get_string_between_brackets` loop: while the
open count stays strictly above the close count the loop neither breaks
nor touches `j`, and it breaks exactly at the balancing closing
delimiter. -/
theorem gsbbAux_run (start stop : Char) (hne : start ≠ stop) (orig : Str) :
    ∀ (a : Str) (s e i j : Nat),
      (∀ n, n ≤ a.length →
        e + countc stop (a.take n) < s + countc start (a.take n)) →
      s + countc start a = e + countc stop a + 1 →
      ∀ b : Str, gsbbAux start stop orig (a ++ stop :: b) s e i j =
        (pySlice orig (j + 1) (i + a.length), j, i + a.length) := by
  intro a
  induction a with
  | nil =>
    intro s e i j hpre hbal b
    have hse : s = e + 1 := by simpa [countc] using hbal
    have hs : 0 < s := by omega
    simp only [List.nil_append, gsbbAux]
    simp [Ne.symm hne, hse, countc]
  | cons c cr ih =>
    intro s e i j hpre hbal b
    have h0 : e < s := by
      have := hpre 0 (Nat.zero_le _)
      simpa [countc] using this
    by_cases h1 : c = start
    · have hcs : ¬(c = stop) := by rw [h1]; exact hne
      have hb : ¬(s + 1 = e) := by omega
      have hstep : gsbbAux start stop orig ((c :: cr) ++ stop :: b) s e i j =
          gsbbAux start stop orig (cr ++ stop :: b) (s + 1) e (i + 1) j := by
        simp only [List.cons_append, gsbbAux]
        simp [h1, hb]
      rw [hstep]
      have hpre2 : ∀ n, n ≤ cr.length →
          e + countc stop (cr.take n) < s + 1 + countc start (cr.take n) := by
        intro n hn
        have := hpre (n + 1) (by simpa using Nat.succ_le_succ hn)
        simp only [List.take_succ_cons, countc, if_pos h1, if_neg hcs] at this
        omega
      have hbal2 : s + 1 + countc start cr = e + countc stop cr + 1 := by
        simp only [countc, if_pos h1, if_neg hcs] at hbal
        omega
      rw [ih (s + 1) e (i + 1) j hpre2 hbal2 b]
      have hlen : i + 1 + cr.length = i + (c :: cr).length := by
        simp; omega
      rw [hlen]
    · by_cases h2 : c = stop
      · have hlt : e + 1 < s := by
          have := hpre 1 (by simp)
          simpa [countc, if_neg h1, if_pos h2, List.take_succ_cons] using this
        have hb : ¬(s = e + 1) := by omega
        have hs0 : s ≠ 0 := by omega
        have hstep : gsbbAux start stop orig ((c :: cr) ++ stop :: b) s e i j =
            gsbbAux start stop orig (cr ++ stop :: b) s (e + 1) (i + 1) j := by
          simp only [List.cons_append, gsbbAux]
          simp [h1, h2, hb, hs0, Ne.symm hne]
        rw [hstep]
        have hpre2 : ∀ n, n ≤ cr.length →
            e + 1 + countc stop (cr.take n) < s + countc start (cr.take n) := by
          intro n hn
          have := hpre (n + 1) (by simpa using Nat.succ_le_succ hn)
          simp only [List.take_succ_cons, countc, if_pos h2, if_neg h1] at this
          omega
        have hbal2 : s + countc start cr = e + 1 + countc stop cr + 1 := by
          simp only [countc, if_pos h2, if_neg h1] at hbal
          omega
        rw [ih s (e + 1) (i + 1) j hpre2 hbal2 b]
        have hlen : i + 1 + cr.length = i + (c :: cr).length := by
          simp; omega
        rw [hlen]
      · have hb : ¬(s = e) := by omega
        have hs0 : s ≠ 0 := by omega
        have hstep : gsbbAux start stop orig ((c :: cr) ++ stop :: b) s e i j =
            gsbbAux start stop orig (cr ++ stop :: b) s e (i + 1) j := by
          simp only [List.cons_append, gsbbAux]
          simp [h1, h2, hb, hs0]
        rw [hstep]
        have hpre2 : ∀ n, n ≤ cr.length →
            e + countc stop (cr.take n) < s + countc start (cr.take n) := by
          intro n hn
          have := hpre (n + 1) (by simpa using Nat.succ_le_succ hn)
          simpa [List.take_succ_cons, countc, if_neg h1, if_neg h2] using this
        have hbal2 : s + countc start cr = e + countc stop cr + 1 := by
          simp only [countc, if_neg h1, if_neg h2] at hbal
          omega
        rw [ih s e (i + 1) j hpre2 hbal2 b]
        have hlen : i + 1 + cr.length = i + (c :: cr).length := by
          simp; omega
        rw [hlen]

/-! ### The claims -/

/-- C6: for every string that begins with the opening delimiter and
closes it with a balancing closing delimiter (the part `a` strictly
between the outer pair being well nested, nested same-character pairs
allowed), `get_string_between_brackets` returns as content the
substring strictly inside the outermost matching pair, as startOffset
`0`, and as endOffset the index of the matching closing delimiter, so
that the caller can slice the remaining text as `text[endOffset+1:]`;
in particular on `"{a{b}c}"` with delimiters `{` `}` it returns content
`"a{b}c"` and endOffset `6`. -/
theorem c6_bracket_span (start stop : Char) (a b : Str) (hne : start ≠ stop)
    (hpre : ∀ n, n ≤ a.length → countc stop (a.take n) ≤ countc start (a.take n))
    (hbal : countc start a = countc stop a) :
    get_string_between_brackets [start, stop] (start :: a ++ stop :: b) =
      (a, 0, a.length + 1) ∧
    (start :: a ++ stop :: b).drop (a.length + 1 + 1) = b := by
  constructor
  · show gsbbAux start stop (start :: a ++ stop :: b) (start :: a ++ stop :: b) 0 0 0 0 = _
    simp only [List.cons_append]
    have hstep : gsbbAux start stop (start :: (a ++ stop :: b)) (start :: (a ++ stop :: b)) 0 0 0 0 =
        gsbbAux start stop (start :: (a ++ stop :: b)) (a ++ stop :: b) 1 0 1 0 := by
      simp only [gsbbAux]
      simp
    have hpre2 : ∀ n, n ≤ a.length →
        0 + countc stop (a.take n) < 1 + countc start (a.take n) := by
      intro n hn
      have := hpre n hn
      omega
    have hbal2 : 1 + countc start a = 0 + countc stop a + 1 := by omega
    rw [hstep, gsbbAux_run start stop hne _ a 1 0 1 0 hpre2 hbal2 b]
    have hsl : pySlice (start :: (a ++ stop :: b)) (0 + 1) (1 + a.length) = a := by
      simp only [pySlice, List.drop_succ_cons, List.drop_zero]
      have : 1 + a.length - (0 + 1) = a.length := by omega
      rw [this]
      exact takeLen a (stop :: b)
    rw [hsl]
    have : 1 + a.length = a.length + 1 := Nat.add_comm 1 a.length
    rw [this]
  · simp only [List.cons_append, List.drop_succ_cons]
    exact dropLenSucc a stop b

/-- Witness for C6 at the concrete input named by the claim. -/
theorem c6_bracket_span_witness :
    get_string_between_brackets (str ("\x7b\x7d")) (str ("\x7ba\x7bb\x7dc\x7d")) =
      (str ("a\x7bb\x7dc"), 0, 6) :=
  (c6_bracket_span '{' '}' (str ("a\x7bb\x7dc")) [] (by decide) (by decide) (by decide)).1

/-- Run of the environment-consuming loop over non-blank interior lines
that do not contain the end token, ending at the first line that does:
the interior is emitted verbatim, the terminal line is consumed but not
emitted, and the lines after it remain in the stream. -/
theorem specialLoop_hit (endTok nl : Str) (lines : List Str)
    (h : strContains nl endTok = true) :
    specialLoop endTok nl lines = ([], .ok lines) := by
  rw [specialLoop.eq_def]
  simp [h]

theorem specialLoop_cons (endTok nl l : Str) (ls : List Str)
    (hnl : strContains nl endTok = false) (hblank : pyStrip nl ≠ []) :
    specialLoop endTok nl (l :: ls) =
      (nl ++ (specialLoop endTok l ls).1, (specialLoop endTok l ls).2) := by
  rw [specialLoop.eq_def]
  simp [hnl, hblank]

theorem specialLoop_run (endTok : Str) :
    ∀ (interior : List Str) (term : Str) (rest : List Str),
      (∀ l ∈ interior, pyStrip l ≠ [] ∧ strContains l endTok = false) →
      strContains term endTok = true →
      ∀ nl, strContains nl endTok = false → pyStrip nl ≠ [] →
        specialLoop endTok nl (interior ++ term :: rest) =
          (nl ++ interior.flatten, .ok rest) := by
  intro interior
  induction interior with
  | nil =>
    intro term rest _ hterm nl hnl hblank
    rw [List.nil_append, specialLoop_cons endTok nl term rest hnl hblank,
      specialLoop_hit endTok term rest hterm]
    simp
  | cons l int ih =>
    intro term rest hin hterm nl hnl hblank
    have hl := hin l (List.mem_cons_self l int)
    have hint : ∀ x ∈ int, pyStrip x ≠ [] ∧ strContains x endTok = false := by
      intro x hx
      exact hin x (List.mem_cons_of_mem l hx)
    rw [List.cons_append, specialLoop_cons endTok nl l (int ++ term :: rest) hnl hblank,
      ih term rest hint hterm l hl.2 hl.1]
    simp [List.append_assoc]

/-- A recognizer whose open condition does not hold writes nothing,
consumes nothing and does not claim the line: header case. -/
theorem read_header_not_open (nl : Str) (lines : List Str) (h : headerOpen nl = false) :
    read_header nl lines = ([], .ok (false, lines)) := by
  unfold headerOpen at h
  unfold read_header
  simp [h]

/-- Sectioning case of the not-open lemma. -/
theorem section_commands_not_open (nl : Str) (lines : List Str) (h : sectionOpen nl = false) :
    section_commands nl lines = ([], .ok (false, lines)) := by
  unfold sectionOpen at h
  unfold section_commands
  simp [h]

/-- Special-environment case of the not-open lemma. -/
theorem special_environments_not_open (nl : Str) (lines : List Str)
    (h : specialOpen nl = false) :
    special_environments nl lines = ([], .ok (false, lines)) := by
  unfold specialOpen at h
  unfold special_environments
  cases hr : reSearch patBeginEnv nl with
  | none => rfl
  | some v =>
    rw [hr] at h
    simp at h

/-- Citation case of the not-open lemma. -/
theorem citations_not_open (nl : Str) (lines : List Str) (h : citeOpen nl = false) :
    citations nl lines = ([], .ok (false, lines)) := by
  unfold citeOpen at h
  unfold citations
  rw [citationsF.eq_def]
  simp [h]

/-- On a stream in which no line satisfies any open condition, the
dispatcher loop rewrites every line independently and concatenates the
results in order. -/
theorem mainPassF_noOpen :
    ∀ (ls : List Str) (f : Nat), ls.length < f →
      (∀ l ∈ ls, openAny l = false) →
      mainPassF f ls = ((ls.map line_latex_to_orgmode).flatten, .ok ()) := by
  intro ls
  induction ls with
  | nil =>
    intro f hf _
    match f, hf with
    | f + 1, _ => rfl
  | cons nl rest ih =>
    intro f hf hop
    have hnl := hop nl (List.mem_cons_self nl rest)
    simp only [openAny, Bool.or_eq_false_iff] at hnl
    obtain ⟨⟨⟨h1, h2⟩, h3⟩, h4⟩ := hnl
    have hrest : ∀ l ∈ rest, openAny l = false := by
      intro l hl
      exact hop l (List.mem_cons_of_mem nl hl)
    match f, hf with
    | f + 1, hf =>
      have hflen : rest.length < f := by
        simp only [List.length_cons] at hf
        omega
      show (match read_header nl rest with
        | (o, Except.error PyErr.stopIteration) => (o, Except.ok ())
        | (o, Except.error e) => (o, Except.error e)
        | (o, Except.ok (true, rest2)) => let n := mainPassF f rest2; (o ++ n.1, n.2)
        | (_, Except.ok (false, _)) =>
          match section_commands nl rest with
          | (o, Except.error PyErr.stopIteration) => (o, Except.ok ())
          | (o, Except.error e) => (o, Except.error e)
          | (o, Except.ok (true, rest2)) => let n := mainPassF f rest2; (o ++ n.1, n.2)
          | (_, Except.ok (false, _)) =>
            match special_environments nl rest with
            | (o, Except.error PyErr.stopIteration) => (o, Except.ok ())
            | (o, Except.error e) => (o, Except.error e)
            | (o, Except.ok (true, rest2)) => let n := mainPassF f rest2; (o ++ n.1, n.2)
            | (_, Except.ok (false, _)) =>
              match citations nl rest with
              | (o, Except.error PyErr.stopIteration) => (o, Except.ok ())
              | (o, Except.error e) => (o, Except.error e)
              | (o, Except.ok (true, rest2)) => let n := mainPassF f rest2; (o ++ n.1, n.2)
              | (_, Except.ok (false, _)) =>
                let n := mainPassF f rest
                (line_latex_to_orgmode nl ++ n.1, n.2)) = _
      rw [read_header_not_open nl rest h1, section_commands_not_open nl rest h2,
        special_environments_not_open nl rest h3, citations_not_open nl rest h4]
      rw [ih f hflen hrest]
      simp

/-- Ten-fold application written as a `foldl` over `range 10` (the
shape of the compiled `for` loop) equals `Function.iterate` ten times. -/
theorem foldl_range_ten {α : Type} (g : α → α) (x : α) :
    (List.range 10).foldl (fun s _ => g s) x = g^[10] x := rfl

/-- C1 (amended): when no input line matches any recognizer's open
condition, the produced output file is the blank-line post-process
(ten passes of the global blank-run substitution) applied to the
concatenation, in input order, of the Line Rewriter applied
independently to each input line. -/
theorem c1_no_construct_passthrough (ls : List Str)
    (h : ∀ l ∈ ls, openAny l = false) :
    file_latex_to_orgmode ls =
      .ok (collapseBlank^[10] ((ls.map line_latex_to_orgmode).flatten)) := by
  unfold file_latex_to_orgmode mainPass
  rw [mainPassF_noOpen ls (ls.length + 1) (by omega) h]
  show Except.ok ((List.range 10).foldl (fun s _ => collapseBlank s)
    ((ls.map line_latex_to_orgmode).flatten)) = _
  rw [foldl_range_ten]

/-- Witness for C1 at a concrete plain-text line. -/
theorem c1_no_construct_passthrough_witness :
    file_latex_to_orgmode [str ("hello world\n")] =
      .ok (collapseBlank^[10] (([str ("hello world\n")].map line_latex_to_orgmode).flatten)) :=
  c1_no_construct_passthrough [str ("hello world\n")] (by decide)

/-- Counterexample for C1 as stated: on three blank lines, none of which
matches any open condition, the output file is `"\n\n"` while the plain
concatenation of the independently rewritten lines is `"\n\n\n"` — the
whole-file blank-line post-process makes the two differ. -/
theorem c1_counterexample :
    (∀ l ∈ [str ("\n"), str ("\n"), str ("\n")], openAny l = false) ∧
    file_latex_to_orgmode [str ("\n"), str ("\n"), str ("\n")] = .ok (str ("\n\n")) ∧
    ([str ("\n"), str ("\n"), str ("\n")].map line_latex_to_orgmode).flatten = str ("\n\n\n") ∧
    file_latex_to_orgmode [str ("\n"), str ("\n"), str ("\n")] ≠
      .ok (([str ("\n"), str ("\n"), str ("\n")].map line_latex_to_orgmode).flatten) := by
  have h1 : file_latex_to_orgmode [str ("\n"), str ("\n"), str ("\n")] = .ok (str ("\n\n")) := by
    decide
  have h2 : ([str ("\n"), str ("\n"), str ("\n")].map line_latex_to_orgmode).flatten =
      str ("\n\n\n") := by decide
  refine ⟨by decide, h1, h2, ?_⟩
  rw [h1, h2]
  decide

/-- When no open condition matches the pending line, the dispatcher
passes the whole line to the Line Rewriter, emits the result and moves
to the next stream line. -/
theorem mainPass_rewriter (nl : Str) (rest : List Str)
    (h1 : headerOpen nl = false) (h2 : sectionOpen nl = false)
    (h3 : specialOpen nl = false) (h4 : citeOpen nl = false) :
    mainPass (nl :: rest) =
      (line_latex_to_orgmode nl ++ (mainPass rest).1, (mainPass rest).2) := by
  unfold mainPass
  simp only [List.length_cons]
  show (match read_header nl rest with
    | (o, Except.error PyErr.stopIteration) => (o, Except.ok ())
    | (o, Except.error e) => (o, Except.error e)
    | (o, Except.ok (true, rest2)) =>
      let n := mainPassF (rest.length + 1) rest2; (o ++ n.1, n.2)
    | (_, Except.ok (false, _)) =>
      match section_commands nl rest with
      | (o, Except.error PyErr.stopIteration) => (o, Except.ok ())
      | (o, Except.error e) => (o, Except.error e)
      | (o, Except.ok (true, rest2)) =>
        let n := mainPassF (rest.length + 1) rest2; (o ++ n.1, n.2)
      | (_, Except.ok (false, _)) =>
        match special_environments nl rest with
        | (o, Except.error PyErr.stopIteration) => (o, Except.ok ())
        | (o, Except.error e) => (o, Except.error e)
        | (o, Except.ok (true, rest2)) =>
          let n := mainPassF (rest.length + 1) rest2; (o ++ n.1, n.2)
        | (_, Except.ok (false, _)) =>
          match citations nl rest with
          | (o, Except.error PyErr.stopIteration) => (o, Except.ok ())
          | (o, Except.error e) => (o, Except.error e)
          | (o, Except.ok (true, rest2)) =>
            let n := mainPassF (rest.length + 1) rest2; (o ++ n.1, n.2)
          | (_, Except.ok (false, _)) =>
            let n := mainPassF (rest.length + 1) rest
            (line_latex_to_orgmode nl ++ n.1, n.2)) = _
  rw [read_header_not_open nl rest h1, section_commands_not_open nl rest h2,
    special_environments_not_open nl rest h3, citations_not_open nl rest h4]

/-- C2 (amended): the dispatcher offers each pending line to exactly
four recognizers, in the fixed source order header → sectioning →
special-environment (which also covers math environments) → citation;
ownership goes to the first whose open condition holds, a recognizer
whose open condition fails writes nothing, consumes nothing and does
not claim the line, and only when all four conditions fail is the line
passed whole to the Line Rewriter and its result emitted.  There are no
separate math-environment, bibliography or comment recognizers. -/
theorem c2_dispatch_order (nl : Str) (rest : List Str) :
    (owner nl = Handler.header ↔ headerOpen nl = true) ∧
    (owner nl = Handler.sectioning ↔ (headerOpen nl = false ∧ sectionOpen nl = true)) ∧
    (owner nl = Handler.specialEnv ↔
      (headerOpen nl = false ∧ sectionOpen nl = false ∧ specialOpen nl = true)) ∧
    (owner nl = Handler.citation ↔
      (headerOpen nl = false ∧ sectionOpen nl = false ∧ specialOpen nl = false ∧
        citeOpen nl = true)) ∧
    (headerOpen nl = false → read_header nl rest = ([], .ok (false, rest))) ∧
    (sectionOpen nl = false → section_commands nl rest = ([], .ok (false, rest))) ∧
    (specialOpen nl = false → special_environments nl rest = ([], .ok (false, rest))) ∧
    (citeOpen nl = false → citations nl rest = ([], .ok (false, rest))) ∧
    (owner nl = Handler.rewriter →
      mainPass (nl :: rest) =
        (line_latex_to_orgmode nl ++ (mainPass rest).1, (mainPass rest).2)) := by
  have hiff : (owner nl = Handler.header ↔ headerOpen nl = true) ∧
      (owner nl = Handler.sectioning ↔ (headerOpen nl = false ∧ sectionOpen nl = true)) ∧
      (owner nl = Handler.specialEnv ↔
        (headerOpen nl = false ∧ sectionOpen nl = false ∧ specialOpen nl = true)) ∧
      (owner nl = Handler.citation ↔
        (headerOpen nl = false ∧ sectionOpen nl = false ∧ specialOpen nl = false ∧
          citeOpen nl = true)) := by
    unfold owner
    by_cases h1 : headerOpen nl <;> by_cases h2 : sectionOpen nl <;>
      by_cases h3 : specialOpen nl <;> by_cases h4 : citeOpen nl <;>
      simp [h1, h2, h3, h4]
  refine ⟨hiff.1, hiff.2.1, hiff.2.2.1, hiff.2.2.2, read_header_not_open nl rest,
    section_commands_not_open nl rest, special_environments_not_open nl rest,
    citations_not_open nl rest, ?_⟩
  intro howner
  unfold owner at howner
  by_cases h1 : headerOpen nl
  · simp [h1] at howner
  · by_cases h2 : sectionOpen nl
    · simp [h1, h2] at howner
    · by_cases h3 : specialOpen nl
      · simp [h1, h2, h3] at howner
      · by_cases h4 : citeOpen nl
        · simp [h1, h2, h3, h4] at howner
        · exact mainPass_rewriter nl rest (Bool.eq_false_iff.mpr h1)
            (Bool.eq_false_iff.mpr h2) (Bool.eq_false_iff.mpr h3) (Bool.eq_false_iff.mpr h4)

/-- Witness for C2: a plain prose line is owned by no recognizer and
goes to the Line Rewriter. -/
theorem c2_dispatch_order_witness :
    mainPass [str ("plain prose line\n")] =
      (line_latex_to_orgmode (str ("plain prose line\n")) ++ (mainPass []).1,
        (mainPass []).2) :=
  (c2_dispatch_order (str ("plain prose line\n")) []).2.2.2.2.2.2.2.2 (by decide)

/-- Counterexample for C2 as stated: a comment line (spec's comment
recognizer open condition holds) and a bibliography declaration (spec's
bibliography recognizer open condition holds) are claimed by no
recognizer of the source — both fall through to the Line Rewriter, so
the claimed seven-recognizer priority chain does not describe the
code's dispatcher. -/
theorem c2_counterexample :
    commentOpenSpec (str ("% a comment line\n")) = true ∧
    owner (str ("% a comment line\n")) = Handler.rewriter ∧
    bibliographyOpenSpec (str ("\\bibliography\x7brefs\x7d\n")) = true ∧
    owner (str ("\\bibliography\x7brefs\x7d\n")) = Handler.rewriter := by
  refine ⟨by decide, by decide, by decide, by decide⟩

/-- C10: after a main pass that completes normally, the file conversion
applies, exactly ten times in sequence, the global substitution
collapsing three consecutive (space-padded) newlines to two, and the
result — not the raw emitted stream — is the final file content; on a
stream with a run of three blank lines the raw emitted text
`"a\n\n\n\nb\n"` is therefore written back as `"a\n\nb\n"`. -/
theorem c10_postprocess :
    (∀ (ls : List Str) (out : Str), mainPass ls = (out, Except.ok ()) →
      file_latex_to_orgmode ls = .ok (collapseBlank^[10] out)) ∧
    mainPass [str ("a\n"), str ("\n"), str ("\n"), str ("\n"), str ("b\n")] =
      (str ("a\n\n\n\nb\n"), .ok ()) ∧
    file_latex_to_orgmode [str ("a\n"), str ("\n"), str ("\n"), str ("\n"), str ("b\n")] =
      .ok (str ("a\n\nb\n")) := by
  refine ⟨?_, by decide, by decide⟩
  intro ls out h
  unfold file_latex_to_orgmode
  rw [h]
  show Except.ok ((List.range 10).foldl (fun s _ => collapseBlank s) out) = _
  rw [foldl_range_ten]

/-- Witness for C10 on a one-line stream. -/
theorem c10_postprocess_witness :
    file_latex_to_orgmode [str ("x\n")] = .ok (collapseBlank^[10] (str ("x\n"))) :=
  c10_postprocess.1 [str ("x\n")] (str ("x\n")) (by decide)

/-- Modelled from the spec (for C3): the comma-separated form of a key
list, as in the claim's "citation command with a comma-separated key
list". -/
def commaJoin : List Str → Str
  | [] => []
  | [k] => k
  | k :: ks => k ++ ',' :: commaJoin ks

/-- Modelled from the spec (for C3): the org key-list shape
`&key1;&key2;...;&keyn` the claim describes. -/
def specKeys : List Str → Str
  | [] => []
  | [k] => '&' :: k
  | k :: ks => '&' :: k ++ ';' :: specKeys ks

theorem pySplitCh_no_sep (sep : Char) :
    ∀ s : Str, (∀ c ∈ s, c ≠ sep) → pySplitCh sep s = [s] := by
  intro s
  induction s with
  | nil => intro _; rfl
  | cons c cr ih =>
    intro h
    have hc : c ≠ sep := h c (List.mem_cons_self c cr)
    have hcr := ih (fun x hx => h x (List.mem_cons_of_mem c hx))
    simp [pySplitCh, hcr, hc]

theorem pySplitCh_append (sep : Char) :
    ∀ (k rest : Str), (∀ c ∈ k, c ≠ sep) →
      pySplitCh sep (k ++ sep :: rest) = k :: pySplitCh sep rest := by
  intro k
  induction k with
  | nil => intro rest _; simp [pySplitCh]
  | cons c cr ih =>
    intro rest h
    have hc : c ≠ sep := h c (List.mem_cons_self c cr)
    have hcr := ih rest (fun x hx => h x (List.mem_cons_of_mem c hx))
    simp [pySplitCh, hcr, hc]

theorem pySplitCh_commaJoin :
    ∀ keys : List Str, keys ≠ [] → (∀ k ∈ keys, ∀ c ∈ k, c ≠ ',') →
      pySplitCh ',' (commaJoin keys) = keys := by
  intro keys
  induction keys with
  | nil => intro h; exact absurd rfl h
  | cons k ks ih =>
    intro _ hk
    cases ks with
    | nil =>
      show pySplitCh ',' (commaJoin [k]) = [k]
      exact pySplitCh_no_sep ',' k (hk k (List.mem_cons_self k []))
    | cons k2 ks2 =>
      show pySplitCh ',' (k ++ ',' :: commaJoin (k2 :: ks2)) = k :: k2 :: ks2
      rw [pySplitCh_append ',' k (commaJoin (k2 :: ks2)) (hk k (List.mem_cons_self k _))]
      rw [ih (by simp) (fun x hx => hk x (List.mem_cons_of_mem k hx))]

theorem orgFold (l : List Str) :
    ∀ a : Str, l.foldl (fun acc e => acc ++ '&' :: pyStrip e ++ [';']) a =
      a ++ (l.map (fun e => '&' :: pyStrip e ++ [';'])).flatten := by
  induction l with
  | nil => intro a; simp
  | cons e l ih =>
    intro a
    simp only [List.foldl_cons, List.map_cons, List.flatten_cons]
    rw [ih (a ++ '&' :: pyStrip e ++ [';'])]
    simp [List.append_assoc]

theorem dropLastConcat (l : Str) : ∀ x : Char, (l ++ [x]).dropLast = l := by
  induction l with
  | nil => intro x; rfl
  | cons c cr ih =>
    intro x
    show ((c :: (cr ++ [x])).dropLast) = c :: cr
    rw [List.dropLast_cons_of_ne_nil (by simp)]
    rw [ih x]

theorem dropLastAppend (l1 : Str) : ∀ l2 : Str, l2 ≠ [] →
    (l1 ++ l2).dropLast = l1 ++ l2.dropLast := by
  induction l1 with
  | nil => intro l2 _; simp
  | cons c cr ih =>
    intro l2 h
    show ((c :: (cr ++ l2)).dropLast) = c :: (cr ++ l2.dropLast)
    rw [List.dropLast_cons_of_ne_nil (by simp [h]), ih l2 h]

theorem flattenDropLast :
    ∀ keys : List Str, keys ≠ [] → (∀ k ∈ keys, pyStrip k = k) →
      ((keys.map (fun e => '&' :: pyStrip e ++ [';'])).flatten).dropLast = specKeys keys := by
  intro keys
  induction keys with
  | nil => intro h; exact absurd rfl h
  | cons k ks ih =>
    intro _ hst
    have hk := hst k (List.mem_cons_self k ks)
    cases ks with
    | nil =>
      show (('&' :: pyStrip k ++ [';']) ++ []).dropLast = specKeys [k]
      rw [List.append_nil, hk]
      show (('&' :: k) ++ [';']).dropLast = '&' :: k
      exact dropLastConcat ('&' :: k) ';'
    | cons k2 ks2 =>
      have htl : ((k2 :: ks2).map (fun e => '&' :: pyStrip e ++ [';'])).flatten ≠ [] := by
        simp
      show (('&' :: pyStrip k ++ [';']) ++
          ((k2 :: ks2).map (fun e => '&' :: pyStrip e ++ [';'])).flatten).dropLast =
        specKeys (k :: k2 :: ks2)
      rw [dropLastAppend _ _ htl, ih (by simp) (fun x hx => hst x (List.mem_cons_of_mem k hx)), hk]
      show ('&' :: (k ++ [';'])) ++ specKeys (k2 :: ks2) = '&' :: k ++ ';' :: specKeys (k2 :: ks2)
      simp [List.append_assoc]

/-- The key-list builder of the citation recognizer turns a
comma-separated key list into the `&key1;&key2;...;&keyn` shape. -/
theorem orgKeyList_spec (keys : List Str) (hne : keys ≠ [])
    (hk : ∀ k ∈ keys, (∀ c ∈ k, c ≠ ',') ∧ pyStrip k = k) :
    orgKeyList (commaJoin keys) = specKeys keys := by
  unfold orgKeyList
  rw [pySplitCh_commaJoin keys hne (fun k h => (hk k h).1), orgFold]
  simp only [List.nil_append]
  exact flattenDropLast keys hne (fun k h => (hk k h).2)

/-- C3: the citation recognizer converts a comma-separated key list
with zero, one or two bracketed notes into
`[[citetype:prenote;&key1;&key2;...;postnote]]` following the fixed
four-shape table of the source (notes absent on both sides yield the
bare `citetype:&keys` shape); in particular `\citep{foo,bar}` yields
`[[citep:&foo;&bar]]` and `\citep[see][p.3]{foo}` yields
`[[citep:see;&foo;p.3]]`, containing both notes and no stray empty
note markers. -/
theorem c3_citation_shapes :
    citations (str ("\\citep\x7bfoo,bar\x7d\n")) [] =
      (str ("[[citep:&foo;&bar]]\n"), .ok (true, [])) ∧
    citations (str ("\\citep[see][p.3]\x7bfoo\x7d\n")) [] =
      (str ("[[citep:see;&foo;p.3]]\n"), .ok (true, [])) ∧
    strContains (str ("[[citep:&foo;&bar]]")) (str (";;")) = false ∧
    strContains (str ("[[citep:see;&foo;p.3]]")) (str (";;")) = false ∧
    (∀ keys : List Str, keys ≠ [] →
      (∀ k ∈ keys, (∀ c ∈ k, c ≠ ',') ∧ pyStrip k = k) →
      orgKeyList (commaJoin keys) = specKeys keys) ∧
    (∀ ct cl : Str, citeShape ct [] [] cl = ct ++ ':' :: cl) ∧
    (∀ ct b1 cl : Str, b1 ≠ [] →
      citeShape ct b1 [] cl = ct ++ ':' :: b1 ++ ';' :: cl ++ [';']) ∧
    (∀ ct b1 b2 cl : Str, b1 ≠ [] → b2 ≠ [] →
      citeShape ct b1 b2 cl = ct ++ ':' :: b1 ++ ';' :: cl ++ ';' :: b2) ∧
    (∀ ct b2 cl : Str, b2 ≠ [] →
      citeShape ct [] b2 cl = ct ++ str (":;") ++ cl ++ ';' :: b2) := by
  refine ⟨by decide, by decide, by decide, by decide, orgKeyList_spec, ?_, ?_, ?_, ?_⟩
  · intro ct cl
    unfold citeShape
    simp
  · intro ct b1 cl h
    unfold citeShape
    simp [h]
  · intro ct b1 b2 cl h1 h2
    unfold citeShape
    simp [h1, h2]
  · intro ct b2 cl h
    unfold citeShape
    simp [h]

/-- Witness for C3: the hypothesis-bearing parts instantiated at the
claim's own key list and note shapes. -/
theorem c3_citation_shapes_witness :
    orgKeyList (commaJoin [str ("foo"), str ("bar")]) =
      specKeys [str ("foo"), str ("bar")] ∧
    citeShape (str ("citep")) (str ("see")) (str ("p.3")) (str ("&foo")) =
      str ("citep") ++ ':' :: str ("see") ++ ';' :: str ("&foo") ++ ';' :: str ("p.3") :=
  ⟨c3_citation_shapes.2.2.2.2.1 [str ("foo"), str ("bar")] (by decide) (by decide),
    c3_citation_shapes.2.2.2.2.2.2.2.1 (str ("citep")) (str ("see")) (str ("p.3")) (str ("&foo"))
      (by decide) (by decide)⟩

/-- C9 (amended): the open conditions of the sectioning and citation
recognizers are bare substring tests — the command token anywhere in
the line, with no following-delimiter requirement — so a prose line
containing `section` with no brace anywhere, or `\cite` with no
following brace, *is* claimed by the recognizer, which then raises
`AttributeError` when the structural extraction fails, instead of
passing the line on. -/
theorem c9_open_conditions :
    (∀ nl : Str, strContains nl (str ("section")) = true → sectionOpen nl = true) ∧
    (∀ nl : Str, strContains nl (str ("\\cite")) = true → citeOpen nl = true) ∧
    (∀ ls : List Str, section_commands (str ("This section describes the results.\n")) ls =
      ([], .error PyErr.attributeError)) ∧
    (∀ ls : List Str, citations (str ("see \\cite key\n")) ls =
      ([], .error PyErr.attributeError)) := by
  refine ⟨?_, ?_, ?_, ?_⟩
  · intro nl h
    unfold sectionOpen
    rw [h, Bool.or_true]
  · intro nl h
    unfold citeOpen
    exact h
  · intro ls
    have hopen : (strContains (str ("This section describes the results.\n")) (str ("chapter")) ||
        strContains (str ("This section describes the results.\n")) (str ("section"))) = true := by
      decide
    have hbal : List.count '{' (str ("This section describes the results.\n")) =
        List.count '}' (str ("This section describes the results.\n")) := by decide
    have hsearch : reSearch patUpToRBrace (str ("This section describes the results.\n")) = none := by
      decide
    unfold section_commands
    rw [sectionJoin.eq_def]
    simp [hopen, hbal, hsearch]
  · intro ls
    have hopen : strContains (str ("see \\cite key\n")) (str ("\\cite")) = true := by decide
    have hbal : List.count '{' (str ("see \\cite key\n")) =
        List.count '}' (str ("see \\cite key\n")) := by decide
    have hsearch : reSearch patCiteToBrace (str ("see \\cite key\n")) = none := by decide
    show citationsF 15 (str ("see \\cite key\n")) ls = _
    rw [citationsF.eq_def]
    simp [hopen, hbal, hsearch]

/-- Witness for C9 at the concrete prose lines of the claim. -/
theorem c9_open_conditions_witness :
    sectionOpen (str ("This section describes the results.\n")) = true ∧
    section_commands (str ("This section describes the results.\n")) [] =
      ([], .error PyErr.attributeError) ∧
    citations (str ("see \\cite key\n")) [] = ([], .error PyErr.attributeError) :=
  ⟨c9_open_conditions.1 (str ("This section describes the results.\n")) (by decide),
    c9_open_conditions.2.2.1 [], c9_open_conditions.2.2.2 []⟩

/-- Counterexample for C9 as stated: a prose line merely containing the
word `section` (no `{` or `[` anywhere) does match the sectioning
recognizer's open condition and is claimed by it (the recognizer then
aborts with `AttributeError`, it does not pass the line on), and
likewise `\cite` with no following brace is claimed by the citation
recognizer. -/
theorem c9_counterexample :
    sectionOpen (str ("This section describes the results.\n")) = true ∧
    strContains (str ("This section describes the results.\n")) (str ("\x7b")) = false ∧
    strContains (str ("This section describes the results.\n")) (str ("[")) = false ∧
    section_commands (str ("This section describes the results.\n")) [] ≠
      ([], .ok (false, [])) ∧
    citeOpen (str ("see \\cite key\n")) = true ∧
    citations (str ("see \\cite key\n")) [] ≠ ([], .ok (false, [])) := by
  refine ⟨by decide, by decide, by decide, by decide, by decide, by decide⟩

/-- C7 (the code bug): the brace-balancing loop of `citations` was
meant to abort with a named `ValueError` after its 10-extra-line
budget (source lines 195-198), but the loop counter `i` is never
initialised (line 175 initialises `i1` twice instead), so the very
first continuation line pulled raises `UnboundLocalError` and the
budget check is unreachable; the sectioning recognizer's budget, whose
counter is initialised, does raise its named `ValueError`. -/
theorem c7_unterminated_constructs :
    citations (str ("e.g. \\citep\x7bsmith99,\n")) [str ("jones00\x7d\n")] =
      ([], .error (PyErr.unboundLocal (str ("i")))) ∧
    section_commands (str ("\\section\x7bA\n"))
        [str ("B\n"), str ("C\n"), str ("D\n"), str ("E\n"), str ("F\n")] =
      ([], .error (PyErr.valueError
        (str ("Unable to find end of section in \\section\x7bA\n\nB\n\nC\n\nD\n\nE\n")))) := by
  refine ⟨by decide, by decide⟩

/-- C5 (amended): `\section{Intro}` produces the heading `* Intro`, and
`\section[Short]{Long Title}` produces `* Long Title` followed by a
metadata block opened by `PROPERTIES:` whose alternate-title line is
`:ALT_TITLE: [Short]` — the short title keeps its square brackets,
because the extraction takes the whole `[...]` match without stripping
the delimiters. -/
theorem c5_sectioning :
    section_commands (str ("\\section\x7bIntro\x7d\n")) [] =
      (str ("* Intro\n\n"), .ok (true, [])) ∧
    section_commands (str ("\\section[Short]\x7bLong Title\x7d\n")) [] =
      (str ("* Long Title\nPROPERTIES:\n:ALT_TITLE: [Short]\n:END:\n\n"), .ok (true, [])) ∧
    strContains (str ("* Long Title\nPROPERTIES:\n:ALT_TITLE: [Short]\n:END:\n\n"))
      (str (":ALT_TITLE: [Short]\n")) = true := by
  refine ⟨by decide, by decide, by decide⟩

/-- Counterexample for C5 as stated: the output for
`\section[Short]{Long Title}` does not contain the line
`:ALT_TITLE: Short`; the emitted alternate-title line keeps the square
brackets. -/
theorem c5_counterexample :
    section_commands (str ("\\section[Short]\x7bLong Title\x7d\n")) [] =
      (str ("* Long Title\nPROPERTIES:\n:ALT_TITLE: [Short]\n:END:\n\n"), .ok (true, [])) ∧
    strContains (str ("* Long Title\nPROPERTIES:\n:ALT_TITLE: [Short]\n:END:\n\n"))
      (str (":ALT_TITLE: Short\n")) = false := by
  refine ⟨by decide, by decide⟩

/-- C4 (amended): on `See \citep{a} and \citep{b}.` both citations are
converted independently; the text before each citation is rewritten by
the Line Rewriter together with the converted citation, and the text
after the last citation is written verbatim.  The Line Rewriter strips
leading spaces, so the middle fragment `' and '` is emitted as
`'and '` and the final output is `See [[citep:&a]]and [[citep:&b]].` -/
theorem c4_multi_citation :
    file_latex_to_orgmode [str ("See \\citep\x7ba\x7d and \\citep\x7bb\x7d.\n")] =
      .ok (str ("See [[citep:&a]]and [[citep:&b]].\n")) ∧
    line_latex_to_orgmode (str (" and [[citep:&b]]")) = str ("and [[citep:&b]]") := by
  refine ⟨by decide, by decide⟩

/-- Counterexample for C4 as stated: the literal fragment `' and '` is
not preserved in the output — the Line Rewriter's leading-space rule
turns it into `'and '`, so the output contains no `' and '`. -/
theorem c4_counterexample :
    citations (str ("See \\citep\x7ba\x7d and \\citep\x7bb\x7d.\n")) [] =
      (str ("See [[citep:&a]]and [[citep:&b]].\n"), .ok (true, [])) ∧
    strContains (str ("See [[citep:&a]]and [[citep:&b]].\n")) (str (" and ")) = false := by
  refine ⟨by decide, by decide⟩

/-! ### C8: environment pass-through, for an arbitrary environment name -/

/-- One-step unfolding of the matcher: empty pattern calls the continuation. -/
theorem reM_step_nil (f : Nat) (rest : Str) (pos : Nat) (caps : Caps)
    (k : Str → Nat → Caps → Option (Nat × Caps)) :
    reM (f + 1) [] rest pos caps k = k rest pos caps := rfl

/-- One-step unfolding of the matcher: literal character. -/
theorem reM_step_ch (f : Nat) (c : Char) (rs' : List RE) (x : Char) (xs : Str)
    (pos : Nat) (caps : Caps) (k : Str → Nat → Caps → Option (Nat × Caps)) :
    reM (f + 1) (RE.ch c :: rs') (x :: xs) pos caps k =
      (if x = c then reM f rs' xs (pos + 1) caps k else none) := rfl

/-- One-step unfolding of the matcher: `.` matches any non-newline character. -/
theorem reM_step_dot (f : Nat) (rs' : List RE) (x : Char) (xs : Str)
    (pos : Nat) (caps : Caps) (k : Str → Nat → Caps → Option (Nat × Caps)) :
    reM (f + 1) (RE.dot :: rs') (x :: xs) pos caps k =
      (if x = '\n' then none else reM f rs' xs (pos + 1) caps k) := rfl

/-- One-step unfolding of the matcher: `^` demands offset 0. -/
theorem reM_step_bol (f : Nat) (rs' : List RE) (rest : Str) (pos : Nat) (caps : Caps)
    (k : Str → Nat → Caps → Option (Nat × Caps)) :
    reM (f + 1) (RE.bol :: rs') rest pos caps k =
      (if pos = 0 then reM f rs' rest pos caps k else none) := rfl

/-- One-step unfolding of the matcher: a lazy `*?` repetition first tries
to let the rest of the pattern match, then consumes one element. -/
theorem reM_step_replazy (f : Nat) (r : RE) (rs' : List RE) (rest : Str) (pos : Nat)
    (caps : Caps) (k : Str → Nat → Caps → Option (Nat × Caps)) :
    reM (f + 1) (RE.rep 0 none false r :: rs') rest pos caps k =
      (match reM f rs' rest pos caps k with
        | some res => some res
        | none => reM f [r] rest pos caps fun r2 p2 c2 =>
            if p2 = pos then none
            else reM f (RE.rep 0 none false r :: rs') r2 p2 c2 k) := rfl

/-- A lazy repetition stops as soon as the rest of the pattern matches. -/
theorem reM_lazy_done (f : Nat) (rs' : List RE) (rest : Str) (pos : Nat) (caps : Caps)
    (k : Str → Nat → Caps → Option (Nat × Caps)) (v : Nat × Caps)
    (hhalt : reM (f + 1) rs' rest pos caps k = some v) :
    reM (f + 1 + 1) (RE.rep 0 none false RE.dot :: rs') rest pos caps k = some v := by
  rw [reM_step_replazy, hhalt]

/-- A lazy dot repetition consumes one more character when the rest of
the pattern does not match at the current offset. -/
theorem reM_lazy_dot_advance (f : Nat) (rs' : List RE) (x : Char) (xs : Str) (pos : Nat)
    (caps : Caps) (k : Str → Nat → Caps → Option (Nat × Caps)) (hx : x ≠ '\n')
    (hhalt : reM (f + 2) rs' (x :: xs) pos caps k = none) :
    reM (f + 2 + 1) (RE.rep 0 none false RE.dot :: rs') (x :: xs) pos caps k =
      reM (f + 2) (RE.rep 0 none false RE.dot :: rs') xs (pos + 1) caps k := by
  rw [reM_step_replazy, hhalt]
  show reM (f + 2) [RE.dot] (x :: xs) pos caps _ = _
  rw [show f + 2 = f + 1 + 1 from rfl, reM_step_dot, if_neg hx, reM_step_nil]
  show (if pos + 1 = pos then none
    else reM (f + 1 + 1) (RE.rep 0 none false RE.dot :: rs') xs (pos + 1) caps k) = _
  rw [if_neg (by omega : ¬(pos + 1 = pos))]

/-- Running the pattern suffix `.*?c` over `env ++ c :: tail` when `env`
contains neither `c` nor a newline: the lazy repetition consumes exactly
`env` and hands control to the continuation right after `c`. -/
theorem reM_lazyDotUpto (c : Char) (tail : Str)
    (k : Str → Nat → Caps → Option (Nat × Caps)) :
    ∀ (env : Str) (fuel pos : Nat) (caps : Caps),
      (∀ x ∈ env, x ≠ c ∧ x ≠ '\n') →
      2 * env.length + 3 ≤ fuel →
      (∃ v, k tail (pos + env.length + 1) caps = some v) →
      reM fuel (RE.rep 0 none false RE.dot :: RE.ch c :: []) (env ++ c :: tail) pos caps k =
        k tail (pos + env.length + 1) caps := by
  intro env
  induction env with
  | nil =>
    intro fuel pos caps _ hfuel hk
    obtain ⟨v, hv⟩ := hk
    obtain ⟨f, rfl⟩ : ∃ f, fuel = f + 3 := ⟨fuel - 3, by omega⟩
    simp only [List.nil_append, List.length_nil, Nat.add_zero] at hv ⊢
    have hhalt : reM (f + 1 + 1) (RE.ch c :: []) (c :: tail) pos caps k = some v := by
      rw [reM_step_ch, if_pos rfl, reM_step_nil]
      exact hv
    rw [show f + 3 = f + 1 + 1 + 1 from rfl,
      reM_lazy_done (f + 1) (RE.ch c :: []) (c :: tail) pos caps k v hhalt, hv]
  | cons x env' ih =>
    intro fuel pos caps hx hfuel hk
    have hxc := hx x (List.mem_cons_self x env')
    have henv' : ∀ y ∈ env', y ≠ c ∧ y ≠ '\n' := fun y hy => hx y (List.mem_cons_of_mem x hy)
    obtain ⟨f, rfl⟩ : ∃ f, fuel = f + 3 := ⟨fuel - 3, by omega⟩
    have hidx : pos + 1 + env'.length + 1 = pos + (x :: env').length + 1 := by
      simp
      omega
    simp only [List.cons_append]
    have hhalt : reM (f + 1 + 1) (RE.ch c :: []) (x :: (env' ++ c :: tail)) pos caps k = none := by
      rw [reM_step_ch, if_neg hxc.1]
    rw [show f + 3 = f + 2 + 1 from rfl,
      reM_lazy_dot_advance f (RE.ch c :: []) x (env' ++ c :: tail) pos caps k hxc.2 hhalt]
    rw [ih (f + 2) (pos + 1) caps henv' (by simp at hfuel ⊢; omega) (by rw [hidx]; exact hk)]
    rw [hidx]

/-- The matcher accepts `^\begin{.*?}` at offset 0 of
`\begin{env}...` for every environment name `env` free of `}` and
newlines, ending the match right after the closing brace. -/
theorem reM_beginEnv (env tail0 : Str) (henv : ∀ x ∈ env, x ≠ '}' ∧ x ≠ '\n')
    (fl : Nat) (hfl : 2 * env.length + 12 ≤ fl) :
    reM fl patBeginEnv
        ('\\' :: 'b' :: 'e' :: 'g' :: 'i' :: 'n' :: '{' :: (env ++ '}' :: tail0)) 0 []
        (fun _ p c => some (p, c)) = some (env.length + 8, []) := by
  obtain ⟨f, rfl⟩ : ∃ f, fl = f + 9 := ⟨fl - 9, by omega⟩
  show reM (f + 9)
      (RE.bol :: RE.ch '\\' :: RE.ch 'b' :: RE.ch 'e' :: RE.ch 'g' :: RE.ch 'i' :: RE.ch 'n' ::
        RE.ch '{' :: RE.rep 0 none false RE.dot :: RE.ch '}' :: [])
      ('\\' :: 'b' :: 'e' :: 'g' :: 'i' :: 'n' :: '{' :: (env ++ '}' :: tail0)) 0 []
      (fun _ p c => some (p, c)) = some (env.length + 8, [])
  rw [show f + 9 = f + 8 + 1 from rfl, reM_step_bol, if_pos rfl,
    show f + 8 = f + 7 + 1 from rfl, reM_step_ch, if_pos rfl,
    show f + 7 = f + 6 + 1 from rfl, reM_step_ch, if_pos rfl,
    show f + 6 = f + 5 + 1 from rfl, reM_step_ch, if_pos rfl,
    show f + 5 = f + 4 + 1 from rfl, reM_step_ch, if_pos rfl,
    show f + 4 = f + 3 + 1 from rfl, reM_step_ch, if_pos rfl,
    show f + 3 = f + 2 + 1 from rfl, reM_step_ch, if_pos rfl,
    show f + 2 = f + 1 + 1 from rfl, reM_step_ch, if_pos rfl]
  rw [reM_lazyDotUpto '}' tail0 (fun _ p c => some (p, c)) env (f + 1) 7 []
    henv (by omega) ⟨(7 + env.length + 1, []), rfl⟩]
  show some (7 + env.length + 1, ([] : Caps)) = some (env.length + 8, ([] : Caps))
  rw [show 7 + env.length + 1 = env.length + 8 from by omega]

/-- One-step unfolding of the search worker at positive fuel. -/
theorem reSearchAux_succ (rs : List RE) (rest : Str) (pos f : Nat) :
    reSearchAux rs rest pos (f + 1) =
      match reM (reFuel rs rest) rs rest pos [] (fun _ p c => some (p, c)) with
      | some (e, c) => some (pos, e, c)
      | none =>
        match rest with
        | [] => none
        | _ :: xs => reSearchAux rs xs (pos + 1) f := by
  cases rest <;> simp only [reSearchAux]

/-- `re.search` of `^\begin{.*?}` on an opening line `\begin{env}...`
finds the match `(0, env.length + 8)` for every environment name free
of `}` and newlines. -/
theorem reSearch_beginEnv (env tail0 : Str) (henv : ∀ x ∈ env, x ≠ '}' ∧ x ≠ '\n') :
    reSearch patBeginEnv (str ("\\begin\x7b") ++ env ++ '}' :: tail0) =
      some (0, env.length + 8, []) := by
  have hs : str ("\\begin\x7b") ++ env ++ '}' :: tail0 =
      '\\' :: 'b' :: 'e' :: 'g' :: 'i' :: 'n' :: '{' :: (env ++ '}' :: tail0) := rfl
  unfold reSearch
  rw [hs]
  have hlen : ('\\' :: 'b' :: 'e' :: 'g' :: 'i' :: 'n' :: '{' :: (env ++ '}' :: tail0)).length =
      (env ++ '}' :: tail0).length + 6 + 1 := by
    simp only [List.length_cons]
  have hM := reM_beginEnv env tail0 henv
    (reFuel patBeginEnv ('\\' :: 'b' :: 'e' :: 'g' :: 'i' :: 'n' :: '{' :: (env ++ '}' :: tail0)))
    (by
      unfold reFuel
      have hsz : reSizeL patBeginEnv = 12 := by decide
      rw [hsz]
      simp only [List.length_cons, List.length_append]
      omega)
  rw [hlen, reSearchAux_succ, hM]

/-- Extracting the environment name from the matched span: slice off the
match `\begin{env}`, drop the 7-character prefix `\begin{` and the final
`}`. -/
theorem envExtract (env tail0 : Str) :
    ((pySlice (str ("\\begin\x7b") ++ env ++ '}' :: tail0) 0 (env.length + 8)).drop 7).dropLast
      = env := by
  unfold pySlice
  simp only [List.drop_zero, Nat.sub_zero]
  have h1 : str ("\\begin\x7b") ++ env ++ '}' :: tail0 =
      (str ("\\begin\x7b") ++ (env ++ ['}'])) ++ tail0 := by
    simp [List.append_assoc]
  have h7 : (str ("\\begin\x7b")).length = 7 := by decide
  have h2 : (str ("\\begin\x7b") ++ (env ++ ['}'])).length = env.length + 8 := by
    simp only [List.length_append, h7, List.length_cons, List.length_nil]
    omega
  rw [h1, ← h2, takeLen]
  rw [show (str ("\\begin\x7b") ++ (env ++ ['}'])).drop 7 = env ++ ['}'] from rfl]
  exact dropLastConcat env '}'

/-- An opening line beginning with a backslash never strips to the empty
string. -/
theorem pyStrip_begin_ne_nil (X : Str) : pyStrip (str ("\\begin\x7b") ++ X) ≠ [] := by
  intro h
  unfold pyStrip at h
  rw [show (str ("\\begin\x7b") ++ X).dropWhile isPySpace =
    '\\' :: (str ("begin\x7b") ++ X) from rfl] at h
  rw [List.reverse_eq_nil_iff, List.dropWhile_eq_nil_iff] at h
  have hsp := h '\\' (by simp)
  exact absurd hsp (by decide)

/-- Reduction of `special_environments` on an opening line
`\begin{env}...` whose consuming loop ends normally: the whole block is
wrapped in the export markers and a synthesized `\end{env}` line. -/
theorem special_environments_env_ok (env tail0 : Str) (lines lines2 : List Str) (body : Str)
    (henv : ∀ x ∈ env, x ≠ '}' ∧ x ≠ '\n')
    (h : specialLoop (str ("end\x7b") ++ env ++ str ("\x7d"))
        (str ("\\begin\x7b") ++ env ++ '}' :: tail0) lines = (body, Except.ok lines2)) :
    special_environments (str ("\\begin\x7b") ++ env ++ '}' :: tail0) lines =
      (str ("\n#+BEGIN_EXPORT latex\n") ++ body ++ str ("\\end\x7b") ++ env ++
        str ("\x7d\n#+END_EXPORT\n\n"), .ok (true, lines2)) := by
  unfold special_environments
  rw [reSearch_beginEnv env tail0 henv]
  simp only [envExtract]
  rw [h]

/-- C8 (amended): for every environment block — an opening line
`\begin{env}...` (any environment name `env` free of `}` and newlines,
any trailing text), non-blank interior lines that do not contain the
end token `end{env}`, and a terminal line that does — the recognizer
consumes lines up to and including the terminal line, wraps the block
in a fixed export block, emits the opening line and the interior lines
byte for byte unmodified, and *replaces* the terminal line by a
synthesized `\end{env}` line, discarding any other text on that
terminal line; the lines after the terminal line are left in the
stream. -/
theorem c8_environment_passthrough (env tail0 : Str) (interior rest : List Str) (term : Str)
    (henv : ∀ x ∈ env, x ≠ '}' ∧ x ≠ '\n')
    (hopen : strContains (str ("\\begin\x7b") ++ env ++ '}' :: tail0)
      (str ("end\x7b") ++ env ++ str ("\x7d")) = false)
    (hin : ∀ l ∈ interior, pyStrip l ≠ [] ∧
      strContains l (str ("end\x7b") ++ env ++ str ("\x7d")) = false)
    (hterm : strContains term (str ("end\x7b") ++ env ++ str ("\x7d")) = true) :
    special_environments (str ("\\begin\x7b") ++ env ++ '}' :: tail0) (interior ++ term :: rest) =
      (str ("\n#+BEGIN_EXPORT latex\n") ++
        ((str ("\\begin\x7b") ++ env ++ '}' :: tail0) ++ interior.flatten) ++
        str ("\\end\x7b") ++ env ++ str ("\x7d\n#+END_EXPORT\n\n"), .ok (true, rest)) :=
  special_environments_env_ok env tail0 (interior ++ term :: rest) rest
    ((str ("\\begin\x7b") ++ env ++ '}' :: tail0) ++ interior.flatten) henv
    (specialLoop_run _ interior term rest hin hterm _ hopen (pyStrip_begin_ne_nil _))

/-- Witness for C8: a concrete `equation` block with LaTeX-special
characters inside. -/
theorem c8_environment_passthrough_witness :
    special_environments (str ("\\begin\x7bequation\x7d\n"))
        ([str ("a&b $ \\cite\x7bx\x7d %\n")] ++ [str ("\\end\x7bequation\x7d\n")] ++ [str ("next\n")]) =
      (str ("\n#+BEGIN_EXPORT latex\n") ++
        ((str ("\\begin\x7b") ++ str ("equation") ++ '}' :: str ("\n")) ++
          [str ("a&b $ \\cite\x7bx\x7d %\n")].flatten) ++
        str ("\\end\x7b") ++ str ("equation") ++ str ("\x7d\n#+END_EXPORT\n\n"),
        .ok (true, [str ("next\n")])) :=
  c8_environment_passthrough (str ("equation")) (str ("\n"))
    [str ("a&b $ \\cite\x7bx\x7d %\n")] [str ("next\n")] (str ("\\end\x7bequation\x7d\n"))
    (by decide) (by decide) (by decide) (by decide)

/-- Counterexample for C8 as stated: first, the terminal line
`x\end{verbatim} tail` is consumed but *not* included in the output —
a synthesized `\end{verbatim}` line is emitted instead, so the output
does not contain the terminal line; second, a blank interior line is
not passed through: the consuming loop spins forever on it (the
`next()` call sits inside the non-blank branch), having written only
the export opener and the opening line. -/
theorem c8_counterexample :
    (special_environments (str ("\\begin\x7bverbatim\x7d\n"))
        [str ("a&b\n"), str ("x\\end\x7bverbatim\x7d tail\n"), str ("next\n")] =
      (str ("\n#+BEGIN_EXPORT latex\n\\begin\x7bverbatim\x7d\na&b\n\\end\x7bverbatim\x7d\n#+END_EXPORT\n\n"),
        .ok (true, [str ("next\n")])) ∧
    strContains
      (str ("\n#+BEGIN_EXPORT latex\n\\begin\x7bverbatim\x7d\na&b\n\\end\x7bverbatim\x7d\n#+END_EXPORT\n\n"))
      (str ("x\\end\x7bverbatim\x7d tail")) = false) ∧
    special_environments (str ("\\begin\x7bverbatim\x7d\n")) [str ("\n")] =
      (str ("\n#+BEGIN_EXPORT latex\n\\begin\x7bverbatim\x7d\n"), .error PyErr.nonTermination) := by
  refine ⟨⟨by decide, by decide⟩, by decide⟩


end L2Org

